import Mathlib

/-!
Verification of the battle decision engine (`src/main.py`): a shallow
embedding of the Damage Estimation Model (`calculate_move_damages`), the
Turn-Order Resolver (`get_effective_speed` / `determine_who_moves_first`),
the Action Filter Pipeline (`filter_suboptimal_moves` and its override
helpers `mortal_peril_alert` / `step_on_throat`), the Viable Switch Filter
(`filter_suboptimal_switches`), the Fallback Selector
(`select_best_damage_move`) and the decision-maker validation loop of
`choose_move`.  All float arithmetic of the source is embedded over `ℚ`.
-/

namespace PokeBattle

/-- The eighteen Pokémon types of the static type chart. -/
inductive PType
  | normal | fire | water | electric | grass | ice | fighting | poison
  | ground | flying | psychic | bug | rock | ghost | dragon | dark
  | steel | fairy
deriving DecidableEq, Repr, Fintype

/-- Move category (`poke_env.environment.MoveCategory`). -/
inductive MoveCategory
  | physical | special | status
deriving DecidableEq, Repr

/-- Weather states used by the source (`poke_env.environment.Weather`). -/
inductive Weather
  | sunnyday | desolateland | raindance | primordialsea | sandstorm
  | snow | snowscape | hail | deltastream
deriving DecidableEq, Repr

/-- Field-wide effects used by the source (`poke_env.environment.Field`). -/
inductive FieldEffect
  | electricterrain | grassyterrain | psychicterrain | trickroom
deriving DecidableEq, Repr

/-- Side conditions used by the source (`poke_env.environment.SideCondition`). -/
inductive SideCondition
  | stealthrock | spikes | toxicspikes | stickyweb | reflect
  | lightscreen | auroraveil | tailwind
deriving DecidableEq, Repr

/-- Non-volatile status conditions (`poke_env.environment.Status`). -/
inductive StatusCond
  | brn | par | psn | tox | slp | frz
deriving DecidableEq, Repr

/-- Volatile effects used by the source (`poke_env.environment.Effect`). -/
inductive VEffect
  | taunt | encore | leechseed | substitute | bind | clamp | firespin
  | infestation | sandtomb | snaptrap | thundercage | whirlpool | wrap
deriving DecidableEq, Repr

/-- The static type-effectiveness chart (attacking type, defending type):
the standard modern chart served by `poke_env.data.GenData`. -/
def typeChart : PType → PType → ℚ
  | .normal, .rock => 1/2
  | .normal, .ghost => 0
  | .normal, .steel => 1/2
  | .fire, .fire => 1/2
  | .fire, .water => 1/2
  | .fire, .grass => 2
  | .fire, .ice => 2
  | .fire, .bug => 2
  | .fire, .rock => 1/2
  | .fire, .dragon => 1/2
  | .fire, .steel => 2
  | .water, .fire => 2
  | .water, .water => 1/2
  | .water, .grass => 1/2
  | .water, .ground => 2
  | .water, .rock => 2
  | .water, .dragon => 1/2
  | .electric, .water => 2
  | .electric, .electric => 1/2
  | .electric, .grass => 1/2
  | .electric, .ground => 0
  | .electric, .flying => 2
  | .electric, .dragon => 1/2
  | .grass, .fire => 1/2
  | .grass, .water => 2
  | .grass, .grass => 1/2
  | .grass, .poison => 1/2
  | .grass, .ground => 2
  | .grass, .flying => 1/2
  | .grass, .bug => 1/2
  | .grass, .rock => 2
  | .grass, .dragon => 1/2
  | .grass, .steel => 1/2
  | .ice, .fire => 1/2
  | .ice, .water => 1/2
  | .ice, .grass => 2
  | .ice, .ice => 1/2
  | .ice, .ground => 2
  | .ice, .flying => 2
  | .ice, .dragon => 2
  | .ice, .steel => 1/2
  | .fighting, .normal => 2
  | .fighting, .ice => 2
  | .fighting, .poison => 1/2
  | .fighting, .flying => 1/2
  | .fighting, .psychic => 1/2
  | .fighting, .bug => 1/2
  | .fighting, .rock => 2
  | .fighting, .ghost => 0
  | .fighting, .dark => 2
  | .fighting, .steel => 2
  | .fighting, .fairy => 1/2
  | .poison, .grass => 2
  | .poison, .poison => 1/2
  | .poison, .ground => 1/2
  | .poison, .rock => 1/2
  | .poison, .ghost => 1/2
  | .poison, .steel => 0
  | .poison, .fairy => 2
  | .ground, .fire => 2
  | .ground, .electric => 2
  | .ground, .grass => 1/2
  | .ground, .poison => 2
  | .ground, .flying => 0
  | .ground, .bug => 1/2
  | .ground, .rock => 2
  | .ground, .steel => 2
  | .flying, .electric => 1/2
  | .flying, .grass => 2
  | .flying, .fighting => 2
  | .flying, .bug => 2
  | .flying, .rock => 1/2
  | .flying, .steel => 1/2
  | .psychic, .fighting => 2
  | .psychic, .poison => 2
  | .psychic, .psychic => 1/2
  | .psychic, .dark => 0
  | .psychic, .steel => 1/2
  | .bug, .fire => 1/2
  | .bug, .grass => 2
  | .bug, .fighting => 1/2
  | .bug, .poison => 1/2
  | .bug, .flying => 1/2
  | .bug, .psychic => 2
  | .bug, .ghost => 1/2
  | .bug, .dark => 2
  | .bug, .steel => 1/2
  | .bug, .fairy => 1/2
  | .rock, .fire => 2
  | .rock, .ice => 2
  | .rock, .fighting => 1/2
  | .rock, .ground => 1/2
  | .rock, .flying => 2
  | .rock, .bug => 2
  | .rock, .steel => 1/2
  | .ghost, .normal => 0
  | .ghost, .psychic => 2
  | .ghost, .ghost => 2
  | .ghost, .dark => 1/2
  | .dragon, .dragon => 2
  | .dragon, .steel => 1/2
  | .dragon, .fairy => 0
  | .dark, .fighting => 1/2
  | .dark, .psychic => 2
  | .dark, .ghost => 2
  | .dark, .dark => 1/2
  | .dark, .fairy => 1/2
  | .steel, .fire => 1/2
  | .steel, .water => 1/2
  | .steel, .electric => 1/2
  | .steel, .ice => 2
  | .steel, .rock => 2
  | .steel, .steel => 1/2
  | .steel, .fairy => 2
  | .fairy, .fire => 1/2
  | .fairy, .fighting => 2
  | .fairy, .poison => 1/2
  | .fairy, .dragon => 2
  | .fairy, .dark => 2
  | .fairy, .steel => 1/2
  | _, _ => 1

/-- A move as the engine sees it (`poke_env`'s `Move` view, restricted to
the fields `src/main.py` reads). -/
structure Move where
  id : String
  base_power : Nat
  type : PType
  category : MoveCategory
  accuracy : Nat
  priority : Int
  crit_stage : Nat
  flags : List String
  boosts : List (String × Int)
  recoil : ℚ
deriving DecidableEq, Repr

/-- A Pokémon as the engine sees it (`poke_env`'s `Pokemon` view, restricted
to the fields `src/main.py` reads).  `weight = 0` stands for an unknown
weight, matching the Python truthiness test `if opponent.weight and ...`.
`moves` is the list of revealed moves (`pokemon.moves.values()`). -/
structure Pokemon where
  species : String
  current_hp_fraction : ℚ
  spe_stat : ℚ
  boosts : List (String × Int)
  status : Option StatusCond
  status_counter : Nat
  ability : Option String
  possible_abilities : List String
  item : Option String
  types : List PType
  effects : List VEffect
  must_recharge : Bool
  fainted : Bool
  weight : ℚ
  moves : List Move
  turn_count : Nat
deriving DecidableEq, Repr

/-- The per-turn battle snapshot (`poke_env`'s `Battle` view, restricted to
the fields `src/main.py` reads). -/
structure Battle where
  gen : Nat
  turn : Nat
  active_pokemon : Pokemon
  opponent_active_pokemon : Pokemon
  available_moves : List Move
  available_switches : List Pokemon
  weather : Option Weather
  fields : List FieldEffect
  side_conditions : List (SideCondition × Nat)
  opponent_side_conditions : List (SideCondition × Nat)
  team : List Pokemon
  opponent_team : List Pokemon
deriving DecidableEq, Repr

/-- `conditions.get(c, 0)` on a side-condition mapping. -/
def scGet (l : List (SideCondition × Nat)) (c : SideCondition) : Nat :=
  ((l.find? (fun p => p.1 = c)).map (fun p => p.2)).getD 0

/-- `c in conditions` on a side-condition mapping. -/
def scMem (l : List (SideCondition × Nat)) (c : SideCondition) : Bool :=
  l.any (fun p => p.1 = c)

/-- `pokemon.boosts.get(stat, 0)`. -/
def getBoost (p : Pokemon) (stat : String) : Int :=
  ((p.boosts.find? (fun q => q.1 = stat)).map (fun q => q.2)).getD 0

/-- `battle.weather in l` (false when no weather is active). -/
def weatherIn (b : Battle) (l : List Weather) : Bool :=
  match b.weather with
  | some w => l.contains w
  | none => false

/-- Effectiveness of an attacking type against this Pokémon's type
combination (`poke_env`'s `Pokemon.damage_multiplier` on a type). -/
def Pokemon.type_multiplier (p : Pokemon) (t : PType) : ℚ :=
  (p.types.map (fun dt => typeChart t dt)).prod

/-- `pokemon.damage_multiplier(move)`: the raw type-chart multiplier of the
move's nominal type against this Pokémon. -/
def Pokemon.damage_multiplier (p : Pokemon) (m : Move) : ℚ :=
  p.type_multiplier m.type

/-- `f"switch-{p.species.lower().replace(' ', '-')}"`. -/
def switchName (p : Pokemon) : String :=
  "switch-" ++ String.mk ((p.species.data.map Char.toLower).map
    (fun c => if c = ' ' then '-' else c))

/-- `p.species.lower().replace(' ', '-')` (the lookup key used when
matching a switch candidate back to a Pokémon). -/
def speciesKey (p : Pokemon) : String :=
  String.mk ((p.species.data.map Char.toLower).map
    (fun c => if c = ' ' then '-' else c))

/-- Remove every (non-overlapping, leftmost-first) occurrence of `patt`
from a character list, with explicit fuel so the recursion is structural.
Python's `str.replace(patt, "")` is `removePattern` below, which supplies
enough fuel for the whole text. -/
def removePatternAux (patt : List Char) : Nat → List Char → List Char
  | 0, l => l
  | _, [] => []
  | fuel + 1, c :: rest =>
    if patt ≠ [] ∧ patt.isPrefixOf (c :: rest) then
      removePatternAux patt fuel (rest.drop (patt.length - 1))
    else
      c :: removePatternAux patt fuel rest

/-- Remove every (non-overlapping, leftmost-first) occurrence of `patt`
from a character list: Python's `str.replace(patt, "")`. -/
def removePattern (patt text : List Char) : List Char :=
  removePatternAux patt text.length text

/-- `s.replace(patt, "")` for strings. -/
def strRemoveAll (s patt : String) : String :=
  String.mk (removePattern patt.data s.data)

/-- `s.startswith(patt)`. -/
def strStartsWith (s patt : String) : Bool :=
  patt.data.isPrefixOf s.data

/-- Does `needle` occur as a contiguous sublist of the argument? -/
def subOccurs (needle : List Char) : List Char → Bool
  | [] => needle.isEmpty
  | c :: rest => needle.isPrefixOf (c :: rest) || subOccurs needle rest

/-- `needle in hay` (Python substring containment). -/
def strContains (hay needle : String) : Bool :=
  subOccurs needle.data hay.data

/-- `sanitize_model_response` (src/main.py line 69):
`re.sub(r"[^a-z-]", "", text.strip().lower())`. -/
def sanitize_model_response (text : String) : String :=
  let stripped := (text.data.dropWhile Char.isWhitespace).reverse.dropWhile
    Char.isWhitespace |>.reverse
  String.mk ((stripped.map Char.toLower).filter
    (fun c => ('a' ≤ c ∧ c ≤ 'z') ∨ c = '-'))

/-- `s.lower()`. -/
def strLower (s : String) : String :=
  String.mk (s.data.map Char.toLower)

/-- One damage-map entry (`damage_info[move.id]` in `calculate_move_damages`). -/
structure DmgInfo where
  expected_damage : ℚ
  stab : Bool
  multiplier : ℚ
  priority : Int
deriving DecidableEq, Repr

/-- Python-dict insertion: overwrite in place when the key exists, append
otherwise (preserving first-insertion order, as CPython dicts do). -/
def dmgInsert (d : List (String × DmgInfo)) (k : String) (v : DmgInfo) :
    List (String × DmgInfo) :=
  if d.any (fun p => p.1 = k) then d.map (fun p => if p.1 = k then (k, v) else p)
  else d ++ [(k, v)]

/-- `d.get(k)` on the damage map. -/
def dmgGet (d : List (String × DmgInfo)) (k : String) : Option DmgInfo :=
  (d.find? (fun p => p.1 = k)).map (fun p => p.2)

/-- `get_crit_damage_multiplier` (src/main.py lines 194-205). -/
def get_crit_damage_multiplier (b : Battle) (pokemon : Pokemon) : ℚ :=
  if pokemon.ability = some "sniper" then
    if 6 ≤ b.gen then 9/4 else 3
  else
    if 6 ≤ b.gen then 3/2 else 2

/-- The crit-stage computation of `get_crit_chance` (src/main.py lines
207-210): the move's crit tier raised by Super Luck and Scope Lens. -/
def crit_stage_of (move : Move) (pokemon : Pokemon) : Nat :=
  let cs := move.crit_stage
  let cs := match pokemon.ability with
    | some a => if a ≠ "" ∧ strContains a "superluck" then cs + 1 else cs
    | none => cs
  match pokemon.item with
  | some i => if i ≠ "" ∧ strContains i "scopelens" then cs + 1 else cs
  | none => cs

/-- `get_crit_chance` (src/main.py lines 207-213). -/
def get_crit_chance (b : Battle) (move : Move) (pokemon : Pokemon) : ℚ :=
  let cs := crit_stage_of move pokemon
  if 7 ≤ b.gen then
    if cs = 0 then 1/24 else if cs = 1 then 1/8 else if cs = 2 then 1/2 else 1
  else if b.gen = 6 then
    if cs = 0 then 1/16 else if cs = 1 then 1/8 else if cs = 2 then 1/2 else 1
  else
    if cs = 0 then 1/16 else if cs = 1 then 1/8 else if cs = 2 then 1/4
    else if cs = 3 then 1/3 else if cs = 4 then 1/2 else 1/2

/-- Step 1 of `calculate_move_damages` (src/main.py lines 215-246): resolve
the effective power and type of variable-power moves (Weather Ball,
Return/Frustration, Heavy Slam/Heat Crash). -/
def resolve_power_type (b : Battle) (active opponent : Pokemon) (move : Move) :
    ℚ × PType :=
  if move.id = "weatherball" then
    if weatherIn b [.sunnyday, .desolateland] then (100, .fire)
    else if weatherIn b [.raindance, .primordialsea] then (100, .water)
    else if b.weather = some .sandstorm then (100, .rock)
    else if b.weather = some .snow then (100, .ice)
    else ((move.base_power : ℚ), move.type)
  else if move.id = "return" ∨ move.id = "frustration" then (102, move.type)
  else if move.id = "heavyslam" ∨ move.id = "heatcrash" then
    if opponent.weight ≠ 0 ∧ active.weight ≠ 0 then
      let wr := opponent.weight / active.weight
      if wr < 1/5 then (120, move.type)
      else if wr < 1/4 then (100, move.type)
      else if wr < 1/3 then (80, move.type)
      else if wr < 1/2 then (60, move.type)
      else (40, move.type)
    else (100, move.type)
  else ((move.base_power : ℚ), move.type)

/-- A conditional multiplicative step `mod *= k if c` from the source,
as the factor it contributes to the running product. -/
def condFactor (c : Prop) [Decidable c] (k : ℚ) : ℚ :=
  if c then k else 1

/-- `get_defensive_modifier` (src/main.py lines 251-276): immunity checks
return 0 before any multiplicative reduction or increase is applied; the
sequence of `mod *= ...` statements is the product of its factors. -/
def get_defensive_modifier (opponent : Pokemon) (move : Move)
    (move_type : PType) (effectiveness : ℚ) (ability : String) : ℚ :=
  if ability = "dryskin" ∧ move_type = .water then 0
  else if ability = "flashfire" ∧ move_type = .fire then 0
  else if ability = "levitate" ∧ move_type = .ground then 0
  else if (ability = "lightningrod" ∨ ability = "motordrive" ∨
      ability = "voltabsorb") ∧ move_type = .electric then 0
  else if ability = "sapsipper" ∧ move_type = .grass then 0
  else if (ability = "stormdrain" ∨ ability = "waterabsorb") ∧
      move_type = .water then 0
  else
    1 *
    condFactor ((ability = "filter" ∨ ability = "solidrock" ∨
      ability = "prismarmor") ∧ 1 < effectiveness) (3/4) *
    condFactor (ability = "fluffy" ∧ move.flags.contains "contact") (1/2) *
    condFactor (ability = "furcoat" ∧ move.category = .physical) (1/2) *
    condFactor (ability = "heatproof" ∧ move_type = .fire) (1/2) *
    condFactor (ability = "icescales" ∧ move.category = .special) (1/2) *
    condFactor (ability = "multiscale" ∧ opponent.current_hp_fraction = 1)
      (1/2) *
    condFactor (ability = "punkrock" ∧ move.flags.contains "sound") (1/2) *
    condFactor (ability = "purifyingsalt" ∧ move_type = .ghost) (1/2) *
    condFactor (ability = "thickfat" ∧ (move_type = .fire ∨ move_type = .ice))
      (1/2) *
    condFactor (ability = "waterbubble" ∧ move_type = .fire) (1/2) *
    condFactor (ability = "dryskin" ∧ move_type = .fire) (5/4) *
    condFactor (ability = "fluffy" ∧ move_type = .fire) 2

/-- The worst-case loop of src/main.py lines 281-286: fold over the
defender's possible abilities, keeping the smallest modifier seen, starting
from `1.0`. -/
def worst_case_modifier (opponent : Pokemon) (move : Move) (move_type : PType)
    (effectiveness : ℚ) : ℚ :=
  opponent.possible_abilities.foldl
    (fun w a =>
      let m := get_defensive_modifier opponent move move_type effectiveness a
      if m < w then m else w) 1

/-- The defensive-ability factor applied to the raw effectiveness
(src/main.py lines 278-286): the known ability's modifier when the ability
is known, the worst-case fold otherwise. -/
def defensive_factor (opponent : Pokemon) (move : Move) (move_type : PType)
    (effectiveness : ℚ) : ℚ :=
  match opponent.ability with
  | some a =>
    if a ≠ "" then get_defensive_modifier opponent move move_type effectiveness a
    else worst_case_modifier opponent move move_type effectiveness
  | none => worst_case_modifier opponent move move_type effectiveness

/-- Effectiveness after the defensive-ability factor and the Tinted Lens
doubling (src/main.py lines 248-289). -/
def compute_effectiveness (b : Battle) (move : Move) (move_type : PType) : ℚ :=
  let opponent := b.opponent_active_pokemon
  let e0 := opponent.damage_multiplier move
  let e1 := e0 * defensive_factor opponent move move_type e0
  if b.active_pokemon.ability = some "tintedlens" ∧ e1 < 1 then e1 * 2 else e1

/-- STAB application for the damaging branch (src/main.py lines 298-302):
note the source resets `power` to the nominal base power here. -/
def stab_power (active : Pokemon) (move : Move) (is_stab : Bool) : ℚ :=
  let power : ℚ := move.base_power
  if active.ability = some "adaptability" ∧ is_stab then power * 2
  else if is_stab then power * (3/2)
  else power

/-- The attacker-ability power-boost `elif` chain (src/main.py lines
304-329): at most one branch fires. -/
def ability_power_boost (b : Battle) (lm : Option String) (active : Pokemon)
    (move : Move) (move_type : PType) : ℚ :=
  let a := active.ability
  if a = some "aerilate" ∧ move_type = .normal then 6/5
  else if a = some "analytic" ∧ 1 < b.turn ∧ lm = some move.id then 13/10
  else if a = some "blaze" ∧ active.current_hp_fraction ≤ 1/3 ∧
      move_type = .fire then 3/2
  else if a = some "darkaura" then 133/100
  else if a = some "fairyaura" then 133/100
  else if a = some "flareboost" ∧ active.status = some .brn ∧
      move.category = .special then 3/2
  else if a = some "guts" ∧ active.status.isSome ∧
      move.category = .physical then 3/2
  else if a = some "ironfist" ∧ move.flags.contains "punch" then 6/5
  else if a = some "megalauncher" ∧ move.flags.contains "pulse" then 3/2
  else if a = some "overgrow" ∧ active.current_hp_fraction ≤ 1/3 ∧
      move_type = .grass then 3/2
  else if a = some "pixilate" ∧ move_type = .normal then 6/5
  else if a = some "punkrock" ∧ move.flags.contains "sound" then 13/10
  else if a = some "reckless" ∧ 0 < move.recoil then 6/5
  else if a = some "refrigerate" ∧ move_type = .normal then 6/5
  else if a = some "sandforce" ∧ b.weather = some .sandstorm ∧
      (move_type = .rock ∨ move_type = .ground ∨ move_type = .steel) then 13/10
  else if a = some "solarpower" ∧ weatherIn b [.sunnyday, .desolateland] ∧
      move.category = .special then 3/2
  else if (a = some "steelworker" ∨ a = some "steelyspirit") ∧
      move_type = .steel then 3/2
  else if a = some "strongjaw" ∧ move.flags.contains "bite" then 3/2
  else if a = some "swarm" ∧ active.current_hp_fraction ≤ 1/3 ∧
      move_type = .bug then 3/2
  else if a = some "technician" ∧ move.base_power ≤ 60 then 3/2
  else if a = some "torrent" ∧ active.current_hp_fraction ≤ 1/3 ∧
      move_type = .water then 3/2
  else if a = some "toughclaws" ∧ move.flags.contains "contact" then 13/10
  else if a = some "toxicboost" ∧ (active.status = some .psn ∨
      active.status = some .tox) ∧ move.category = .physical then 3/2
  else if a = some "transistor" ∧ move_type = .electric then 13/10
  else if a = some "waterbubble" ∧ move_type = .water then 2
  else 1

/-- Weather and terrain power modifiers (src/main.py lines 331-339). -/
def weather_terrain_power (b : Battle) (active : Pokemon) (move_type : PType)
    (power : ℚ) : ℚ :=
  let is_grounded := ¬ active.types.contains PType.flying ∧
    active.ability ≠ some "levitate"
  power *
  condFactor (weatherIn b [.sunnyday, .desolateland] ∧ move_type = .fire)
    (3/2) *
  condFactor (weatherIn b [.sunnyday, .desolateland] ∧ move_type = .water)
    (1/2) *
  condFactor (weatherIn b [.raindance, .primordialsea] ∧ move_type = .water)
    (3/2) *
  condFactor (weatherIn b [.raindance, .primordialsea] ∧ move_type = .fire)
    (1/2) *
  condFactor (b.fields.contains .electricterrain ∧ move_type = .electric ∧
    is_grounded) (13/10) *
  condFactor (b.fields.contains .grassyterrain ∧ move_type = .grass ∧
    is_grounded) (13/10) *
  condFactor (b.fields.contains .psychicterrain ∧ move_type = .psychic ∧
    is_grounded) (13/10)

/-- The final damage modifier: burn, screens, weather-driven defensive
bonuses (src/main.py lines 341-349). -/
def final_damage_modifier (b : Battle) (active opponent : Pokemon)
    (move : Move) : ℚ :=
  1 *
  condFactor (active.status = some .brn ∧ move.category = .physical ∧
    active.ability ≠ some "guts") (1/2) *
  condFactor (scMem b.opponent_side_conditions .reflect ∧
    move.category = .physical) (1/2) *
  condFactor (scMem b.opponent_side_conditions .lightscreen ∧
    move.category = .special) (1/2) *
  condFactor (b.weather = some .sandstorm ∧ opponent.types.contains .rock ∧
    move.category = .special ∧ 4 ≤ b.gen) (2/3) *
  condFactor (b.weather = some .snow ∧ opponent.types.contains .ice ∧
    move.category = .physical ∧ 9 ≤ b.gen) (2/3)

/-- The Freeze-Dry effectiveness override (src/main.py lines 351-361),
transcribed as written (the source queries the chart with the defender's
type as the attacking type). -/
def freezedry_effectiveness (opponent : Pokemon) : ℚ :=
  opponent.types.foldl
    (fun e t => if t = .water then e * 2 else e * typeChart t .ice) 1

/-- One loop iteration of `calculate_move_damages` (src/main.py lines
215-376): the damage-map entry recorded for one move. -/
def move_damage_entry (b : Battle) (lm : Option String) (move : Move) : DmgInfo :=
  let active := b.active_pokemon
  let opponent := b.opponent_active_pokemon
  let rt := resolve_power_type b active opponent move
  let move_type := rt.2
  let effectiveness := compute_effectiveness b move move_type
  let is_stab := active.types.contains move_type
  if move.category = .status ∨ effectiveness = 0 then
    { expected_damage := 0, stab := is_stab, multiplier := effectiveness,
      priority := move.priority }
  else
    let power := stab_power active move is_stab
    let power := power * ability_power_boost b lm active move move_type
    let power := weather_terrain_power b active move_type power
    let fm := final_damage_modifier b active opponent move
    let effectiveness := if move.id = "freezedry" then
        freezedry_effectiveness opponent else effectiveness
    let base_damage := power * effectiveness * fm
    let crit_chance := get_crit_chance b move active
    let crit_multiplier := get_crit_damage_multiplier b active
    let crit_damage_modifier := 1 + crit_chance * (crit_multiplier - 1)
    let expected := ((move.accuracy : ℚ) / 100) * base_damage *
      crit_damage_modifier
    { expected_damage := expected, stab := is_stab,
      multiplier := effectiveness, priority := move.priority }

/-- `calculate_move_damages` (src/main.py lines 184-378).  `lm` is the
engine memory `self.last_move`, which the source reads through the
Analytic-ability branch. -/
def calculate_move_damages (b : Battle) (lm : Option String) :
    List (String × DmgInfo) :=
  b.available_moves.foldl
    (fun d move => dmgInsert d move.id (move_damage_entry b lm move)) []

/-- The inner `calculate_speed` of `get_effective_speed` (src/main.py lines
1019-1033). -/
def calculate_speed (b : Battle) (pokemon : Pokemon)
    (side_conditions : List (SideCondition × Nat)) : ℚ :=
  let boost := getBoost pokemon "spe"
  pokemon.spe_stat *
  (if 0 < boost then (2 + (boost : ℚ)) / 2
   else if boost < 0 then 2 / (2 - (boost : ℚ))
   else 1) *
  condFactor (pokemon.ability = some "slushrush" ∧
    weatherIn b [.hail, .snow]) 2 *
  condFactor (pokemon.ability = some "swiftswim" ∧
    weatherIn b [.raindance, .primordialsea]) 2 *
  condFactor (pokemon.ability = some "chlorophyll" ∧
    weatherIn b [.sunnyday, .desolateland]) 2 *
  condFactor (pokemon.ability = some "slowstart" ∧
    pokemon.turn_count < 5) (1/2) *
  condFactor (pokemon.status = some .par)
    (if 7 ≤ b.gen then 1/2 else 1/4) *
  condFactor (scMem side_conditions .tailwind = true) 2

/-- `get_effective_speed` (src/main.py lines 1012-1038). -/
def get_effective_speed (b : Battle) : ℚ × ℚ :=
  (calculate_speed b b.active_pokemon b.side_conditions,
   calculate_speed b b.opponent_active_pokemon b.opponent_side_conditions)

/-- `determine_who_moves_first` (src/main.py lines 1040-1053). -/
def determine_who_moves_first (b : Battle) : Bool :=
  let sp := get_effective_speed b
  if b.fields.contains .trickroom then sp.1 < sp.2 else sp.2 < sp.1

/-- The `switch-...` action strings built from `battle.available_switches`
(src/main.py line 510 and friends). -/
def switchNames (b : Battle) : List String :=
  b.available_switches.map switchName

/-- The weakness test of `filter_suboptimal_switches` (src/main.py lines
931-957) for one switch candidate: weak to a revealed non-status move of
the opponent, or — when no moves are revealed — to one of the opponent's
own types.  Candidates that match no Pokémon in `available_switches` are
never removed (`continue`). -/
def switch_is_suboptimal (b : Battle) (switch_option : String) : Bool :=
  let opponent := b.opponent_active_pokemon
  let name := strRemoveAll switch_option "switch-"
  match b.available_switches.find? (fun p => speciesKey p = name) with
  | none => false
  | some p =>
    if ¬ opponent.moves.isEmpty then
      (opponent.moves.filter (fun m => ¬ m.category = .status)).any
        (fun m => 1 < p.damage_multiplier m)
    else
      opponent.types.any (fun t => 1 < p.type_multiplier t)

/-- `filter_suboptimal_switches` (src/main.py lines 922-964): the Viable
Switch Filter.  When every candidate would be removed, the original list
is returned unchanged. -/
def filter_suboptimal_switches (b : Battle)
    (available_switches : List String) : List String :=
  if available_switches.isEmpty then []
  else
    let switches_to_remove :=
      available_switches.filter (fun s => switch_is_suboptimal b s)
    if switches_to_remove.length = available_switches.length then
      available_switches
    else
      available_switches.filter (fun s => ¬ switch_is_suboptimal b s)

/-- `step_on_throat` (src/main.py lines 1055-1077): when moving first,
restrict to moves whose expected damage reaches the `2.5` KO threshold,
when any exist. -/
def step_on_throat (b : Battle) (legal_actions : List String)
    (damage_info : List (String × DmgInfo)) : List String :=
  if ¬ determine_who_moves_first b then legal_actions
  else
    let ko_moves := (damage_info.filter
      (fun p => 5/2 ≤ p.2.expected_damage)).map (fun p => p.1)
    if ¬ ko_moves.isEmpty then ko_moves else legal_actions

/-- The KO-threat test of `mortal_peril_alert` (src/main.py lines
1094-1104): a revealed quad-effective move, or — with no revealed moves —
any of the opponent's own types being super-effective. -/
def has_ko_threat (b : Battle) : Bool :=
  let my := b.active_pokemon
  let opponent := b.opponent_active_pokemon
  if ¬ opponent.moves.isEmpty then
    opponent.moves.any (fun m => my.damage_multiplier m = 4)
  else
    opponent.types.any (fun t => 1 < my.type_multiplier t)

/-- `mortal_peril_alert` (src/main.py lines 1079-1130). -/
def mortal_peril_alert (b : Battle) (legal_actions : List String)
    (damage_info : List (String × DmgInfo)) : List String :=
  let am_i_faster := determine_who_moves_first b
  if ¬ has_ko_threat b then legal_actions
  else
    let viable_switch_names := filter_suboptimal_switches b (switchNames b)
    if ¬ am_i_faster then viable_switch_names
    else
      let ko_moves := (damage_info.filter
        (fun p => 2 ≤ p.2.expected_damage)).map (fun p => p.1)
      if ko_moves.length = 0 then viable_switch_names
      else ko_moves

/-- Rules 0 and 0.5 of `filter_suboptimal_moves` (src/main.py lines
390-395): mortal peril, then kill securing when the opponent is below half
HP. -/
def override_phase (b : Battle) (legal_actions : List String)
    (dm : List (String × DmgInfo)) : List String :=
  let fa := mortal_peril_alert b legal_actions dm
  if b.opponent_active_pokemon.current_hp_fraction < 1/2 then
    step_on_throat b fa dm
  else fa

/-- `if cond: filtered_actions.remove(name)` — the guarded single-removal
step used throughout `filter_suboptimal_moves`. -/
def condErase (c : Prop) [Decidable c] (a : String) (l : List String) :
    List String :=
  if c then l.erase a else l

/-- A guarded removal of two names at once. -/
def condEraseTwo (c : Prop) [Decidable c] (a a' : String)
    (l : List String) : List String :=
  if c then (l.erase a).erase a' else l

/-- A guarded removal of a whole list of names. -/
def condFoldErase (c : Prop) [Decidable c] (names l : List String) :
    List String :=
  if c then names.foldl (fun acc m => acc.erase m) l else l

/-- A guarded filtering step. -/
def condKeep (c : Prop) [Decidable c] (p : String → Bool)
    (l : List String) : List String :=
  if c then l.filter p else l

/-- The healing-move list of Rule 1 (src/main.py lines 399-402). -/
def healing_moves : List String :=
  ["healorder", "milkdrink", "moonlight", "morningsun", "recover", "rest",
   "roost", "shoreup", "slackoff", "softboiled", "swallow", "synthesis"]

/-- Rule 1 (src/main.py lines 397-406): drop healing moves at or above
66% HP. -/
def fmRule1 (b : Battle) (fa : List String) : List String :=
  condFoldErase (33/50 ≤ b.active_pokemon.current_hp_fraction)
    healing_moves fa

/-- Rule 2 (src/main.py lines 408-437): drop hazard/screen moves whose
condition is already active or capped. -/
def fmRule2 (b : Battle) (fa : List String) : List String :=
  let osc := b.opponent_side_conditions
  let msc := b.side_conditions
  condErase (b.fields.contains .trickroom) "trickroom"
    (condErase (scMem msc .tailwind) "tailwind"
      (condErase (scMem msc .auroraveil) "auroraveil"
        (condErase (scMem msc .lightscreen) "lightscreen"
          (condErase (scMem msc .reflect) "reflect"
            (condErase (scMem osc .stickyweb) "stickyweb"
              (condErase (2 ≤ scGet osc .toxicspikes) "toxicspikes"
                (condErase (3 ≤ scGet osc .spikes) "spikes"
                  (condErase (scMem osc .stealthrock) "stealthrock"
                    fa))))))))

/-- Rule 3 (src/main.py lines 439-450): drop hazard clearers with nothing
to clear (Defog also checks the opponent's side). -/
def fmRule3 (b : Battle) (fa : List String) : List String :=
  let my_side_hazards := b.side_conditions.any
    (fun p => p.1 = .stealthrock ∨ p.1 = .spikes ∨ p.1 = .toxicspikes ∨
      p.1 = .stickyweb)
  if ¬ my_side_hazards then
    let fa2 := (fa.erase "rapidspin").erase "mortalspin"
    condErase (fa2.contains "defog" ∧
      ¬ b.opponent_side_conditions.any (fun p => p.2 ≠ 0)) "defog" fa2
  else fa

/-- Rule 4 (src/main.py lines 452-500): drop setup moves whose stats are
already boosted. -/
def fmRule4 (b : Battle) (fa : List String) : List String :=
  let g := fun s => getBoost b.active_pokemon s
  let fa1 := condErase (2 ≤ g "atk") "swordsdance" fa
  let fa2 := condErase (2 ≤ g "spa") "nastyplot" fa1
  let fa3 := condEraseTwo (2 ≤ g "def") "irondefense" "acidarmor" fa2
  let fa4 := condErase (2 ≤ g "spd") "amnesia" fa3
  let fa5 := condEraseTwo (2 ≤ g "spe") "agility" "rockpolish" fa4
  let fa6 := condEraseTwo (1 ≤ g "atk" ∧ 1 ≤ g "def") "bulkup" "coil" fa5
  let fa7 := condErase (1 ≤ g "atk" ∧ 1 ≤ g "spe") "dragondance" fa6
  let fa8 := condErase (1 ≤ g "spa" ∧ 1 ≤ g "spd") "calmmind" fa7
  let fa9 := condErase (1 ≤ g "spa" ∧ 1 ≤ g "spd" ∧ 1 ≤ g "spe")
    "quiverdance" fa8
  let fa10 := condErase (fa9.contains "shellsmash" ∧
    (2 ≤ g "atk" ∨ 2 ≤ g "spa") ∧ 2 ≤ g "spe") "shellsmash" fa9
  condErase (fa10.contains "curse" ∧
    ¬ b.active_pokemon.types.contains .ghost ∧
    1 ≤ g "atk" ∧ 1 ≤ g "def") "curse" fa10

/-- Rule 6 (src/main.py lines 521-530): drop damaging moves whose expected
damage is zero (immunities). -/
def fmRule6 (b : Battle) (dm : List (String × DmgInfo))
    (fa : List String) : List String :=
  dm.foldl (fun acc p =>
    if p.2.expected_damage = 0 ∧
        ((b.available_moves.find? (fun m => m.id = p.1)).any
          (fun mv => decide (¬ mv.category = MoveCategory.status))) then
      acc.erase p.1
    else acc) fa

/-- Rule 7 (src/main.py lines 532-541): drop damaging moves at or below
the `0.5` expected-damage floor. -/
def fmRule7 (b : Battle) (dm : List (String × DmgInfo))
    (fa : List String) : List String :=
  dm.foldl (fun acc p =>
    if p.2.expected_damage ≤ 1/2 ∧
        ((b.available_moves.find? (fun m => m.id = p.1)).any
          (fun mv => decide (¬ mv.category = MoveCategory.status))) then
      acc.erase p.1
    else acc) fa

/-- The sleep-inducing move list of Rules 8 and 13.5 (src/main.py line
546). -/
def sleep_moves : List String :=
  ["darkvoid", "grasswhistle", "hypnosis", "lovelykiss", "sing",
   "sleeppowder", "spore", "yawn"]

/-- Rule 8 (src/main.py lines 543-550): one sleeping opponent at a time. -/
def fmRule8 (b : Battle) (fa : List String) : List String :=
  condFoldErase (b.opponent_team.any (fun p => p.status = some .slp))
    sleep_moves fa

/-- The trapping-move list of Rule 9 (src/main.py line 566). -/
def trapping_moves : List String :=
  ["bind", "clamp", "firespin", "infestation", "sandtomb", "snaptrap",
   "thundercage", "whirlpool", "wrap"]

/-- Rule 9 (src/main.py lines 552-570): do not reapply volatile effects
the opponent already has. -/
def fmRule9 (b : Battle) (fa : List String) : List String :=
  let opp := b.opponent_active_pokemon
  let trapped := [VEffect.bind, .clamp, .firespin, .infestation, .sandtomb,
    .snaptrap, .thundercage, .whirlpool, .wrap].any
    (fun e => opp.effects.contains e)
  condFoldErase trapped trapping_moves
    (condErase (opp.effects.contains .leechseed) "leechseed"
      (condErase (opp.effects.contains .encore) "encore"
        (condErase (opp.effects.contains .taunt) "taunt" fa)))

/-- Rule 11 (src/main.py lines 597-602): no Trick/Switcheroo without an
item or against Sticky Hold. -/
def fmRule11 (b : Battle) (fa : List String) : List String :=
  condEraseTwo ((fa.contains "trick" ∨ fa.contains "switcheroo") ∧
      (b.active_pokemon.item = none ∨
       (b.opponent_active_pokemon.ability.any
         (fun a => decide (a ≠ "") && strContains a "sticky-hold"))))
    "trick" "switcheroo" fa

/-- Rule 12 (src/main.py lines 604-607): no double Wish. -/
def fmRule12 (lm : Option String) (fa : List String) : List String :=
  condErase (lm = some "wish") "wish" fa

/-- The status-move list of Rule 13 (src/main.py line 611). -/
def status_moves_list : List String :=
  ["glare", "poisonpowder", "poisongas", "stunspore", "thunderwave",
   "toxic", "willowisp", "darkvoid", "grasswhistle", "hypnosis",
   "lovelykiss", "sing", "sleeppowder", "spore", "yawn"]

/-- Rule 13 (src/main.py lines 609-624): status redundancy and type-based
status immunity. -/
def fmRule13 (b : Battle) (fa : List String) : List String :=
  let opp := b.opponent_active_pokemon
  condErase (opp.types.contains .grass) "leechseed"
    (condEraseTwo ((opp.types.contains .poison ∨
        opp.types.contains .steel) ∧
        b.active_pokemon.ability ≠ some "corrosion") "toxic" "poisonpowder"
      (condErase (opp.types.contains .fire) "willowisp"
        (condErase (opp.types.contains .electric ∧ 6 ≤ b.gen) "thunderwave"
          (condFoldErase opp.status.isSome status_moves_list fa))))

/-- Rule 13.5 (src/main.py lines 626-664): ability-based status
immunities, over the known ability or all possible abilities. -/
def fmRule13half (b : Battle) (fa : List String) : List String :=
  let opp := b.opponent_active_pokemon
  let pa := match opp.ability with
    | some a => if a ≠ "" then [a] else opp.possible_abilities
    | none => opp.possible_abilities
  if ¬ pa.isEmpty then
    let fa1 := condFoldErase (pa.contains "overcoat" ∨
      (opp.types.contains .grass ∧ 6 ≤ b.gen))
      ["poisonpowder", "sleeppowder", "spore", "stunspore"] fa
    let fa2 := condFoldErase
      (pa.any (fun a => a = "insomnia" ∨ a = "vitalsprit") = true)
      sleep_moves fa1
    let fa3 := condErase
      ((pa.contains "waterveil" && fa2.contains "willowisp") = true)
      "willowisp" fa2
    let fa4 := condFoldErase (pa.contains "limber" ∨
      (opp.types.contains .electric ∧ 6 ≤ b.gen))
      ["thunderwave", "glare", "nuzzle"] fa3
    condErase ((pa.contains "oblivious" && fa4.contains "taunt" &&
      decide (6 ≤ b.gen)) = true) "taunt" fa4
  else fa

/-- Rule 14 (src/main.py lines 666-669): Pain Split only from a deficit. -/
def fmRule14 (b : Battle) (fa : List String) : List String :=
  condErase (b.opponent_active_pokemon.current_hp_fraction ≤
    b.active_pokemon.current_hp_fraction) "painsplit" fa

/-- The forced-switch trigger of Rule 15 (src/main.py lines 671-686): the
primary attacking stat dropped to -2 or lower. -/
def rule15_force_switch (b : Battle) : Bool :=
  let atk_boost := getBoost b.active_pokemon "atk"
  let spa_boost := getBoost b.active_pokemon "spa"
  let phys := (b.available_moves.filter (fun m => m.category = .physical)).length
  let spec := (b.available_moves.filter (fun m => m.category = .special)).length
  if spec < phys ∧ atk_boost ≤ -2 then true
  else if phys < spec ∧ spa_boost ≤ -2 then true
  else if phys = spec ∧ (atk_boost ≤ -2 ∨ spa_boost ≤ -2) then true
  else false

/-- Rule 16 (src/main.py lines 703-710): no pivot moves on the last
Pokémon. -/
def fmRule16 (b : Battle) (fa : List String) : List String :=
  condFoldErase (b.team.length = 1)
    ["batonpass", "teleport", "flipturn", "voltswitch"] fa

/-- The protection-move list of Rule 17 (src/main.py lines 712-717). -/
def protect_moves : List String :=
  ["protect", "detect", "spikyshield", "kingsshield", "banefulbunker",
   "obstruct", "burningbulwark", "silktrap"]

/-- Rule 17 (src/main.py lines 712-717): no double Protect. -/
def fmRule17 (lm : Option String) (fa : List String) : List String :=
  condFoldErase (lm.any (fun m => protect_moves.contains m) = true)
    protect_moves fa

/-- Rule 18 (src/main.py lines 719-752): weather-dependent move pruning.
The sun-healing block of lines 741-745 only logs in the source — the
removal call is absent — so it contributes nothing here. -/
def fmRule18 (b : Battle) (fa : List String) : List String :=
  condErase (¬ weatherIn b [.raindance, .primordialsea, .deltastream,
      .hail, .sandstorm, .snow, .snowscape, .sunnyday, .desolateland])
    "weatherball"
    (condErase (¬ weatherIn b [.hail, .snow, .snowscape]) "auroraveil"
      (condErase (¬ weatherIn b [.raindance, .primordialsea]) "electroshot"
        (condEraseTwo (¬ weatherIn b [.sunnyday, .desolateland])
          "solarbeam" "solarblade" fa)))

/-- Rule 20 (src/main.py lines 754-757): Knock Off needs an item to knock
off or super-effectiveness. -/
def fmRule20 (b : Battle) (dm : List (String × DmgInfo))
    (fa : List String) : List String :=
  condErase (fa.contains "knockoff" ∧
      (b.opponent_active_pokemon.item.all (fun i => decide (i = ""))) ∧
      (((dmgGet dm "knockoff").map (fun i => i.multiplier)).getD 1 ≤ 1))
    "knockoff" fa

/-- The status-move test of Rules 21 and 23 (src/main.py lines 762-766):
a non-switch entry whose move object has the status category. -/
def is_status_move_entry (b : Battle) (a : String) : Bool :=
  !(strStartsWith a "switch-") &&
  ((b.available_moves.find? (fun m => m.id = a)).any
    (fun mv => decide (mv.category = MoveCategory.status)))

/-- Rule 21 (src/main.py lines 759-769): no status moves into a
Substitute. -/
def fmRule21 (b : Battle) (fa : List String) : List String :=
  condKeep (b.opponent_active_pokemon.effects.contains .substitute)
    (fun a => ! is_status_move_entry b a) fa

/-- Rule 22 (src/main.py lines 771-774): no second Substitute. -/
def fmRule22 (b : Battle) (fa : List String) : List String :=
  condErase (b.active_pokemon.effects.contains .substitute)
    "substitute" fa

/-- Rule 23 (src/main.py lines 776-787): Prankster status moves fail
against Dark types from gen 7. -/
def fmRule23 (b : Battle) (fa : List String) : List String :=
  condKeep (b.active_pokemon.ability = some "prankster" ∧ 7 ≤ b.gen ∧
      b.opponent_active_pokemon.types.contains .dark)
    (fun a => ! is_status_move_entry b a) fa

/-- The recharge-move list of Rule 25 (src/main.py line 806). -/
def recharge_moves : List String :=
  ["hyperbeam", "gigaimpact", "rockwrecker", "frenzyplant", "blastburn",
   "hydrocannon", "roaroftime", "eternabeam"]

/-- Rule 25 (src/main.py lines 805-809): unconditionally drop
recharge-turn moves. -/
def fmRule25 (fa : List String) : List String :=
  recharge_moves.foldl (fun acc m => acc.erase m) fa

/-- The forced-switch trigger of Rule 26, scenario 1 (src/main.py lines
814-843): encored into a single move that is now useless. -/
def rule26_encore_force (b : Battle) (dm : List (String × DmgInfo)) : Bool :=
  match b.available_moves with
  | [locked] =>
    if ¬ locked.category = .status then
      ((dmgGet dm locked.id).map (fun i => i.multiplier)).getD 1 < 1
    else
      (¬ locked.boosts.isEmpty ∧
        locked.boosts.all (fun sv => 6 ≤ getBoost b.active_pokemon sv.1)) ∨
      (locked.id = "stealthrock" ∧
        scMem b.opponent_side_conditions .stealthrock) ∨
      (locked.id = "spikes" ∧ 3 ≤ scGet b.opponent_side_conditions .spikes) ∨
      (locked.id = "stickyweb" ∧ scMem b.opponent_side_conditions .stickyweb)
  | _ => false

/-- Rule 29 (src/main.py lines 893-896): no double Yawn. -/
def fmRule29 (lm : Option String) (fa : List String) : List String :=
  condErase (lm = some "yawn") "yawn" fa

/-- The self-knockout-move list of Rule 30 (src/main.py line 899). -/
def self_ko_moves : List String := ["explosion", "selfdestruct", "mistyexplosion"]

/-- Rule 30 (src/main.py lines 898-905): self-knockout only as a
favorable trade. -/
def fmRule30 (b : Battle) (fa : List String) : List String :=
  self_ko_moves.foldl (fun acc m =>
    if acc.contains m ∧
        ¬ (b.active_pokemon.current_hp_fraction < 17/50 ∧
           33/50 < b.opponent_active_pokemon.current_hp_fraction) then
      acc.erase m
    else acc) fa

/-- Rule 33 (src/main.py lines 907-913): cleric moves only when a living
teammate is statused. -/
def fmRule33 (b : Battle) (fa : List String) : List String :=
  let is_team_statused := (b.team.filter (fun p => ¬ p.fainted)).any
    (fun p => p.status.isSome)
  ["healbell", "aromatherapy"].foldl (fun acc m =>
    if acc.contains m ∧ ¬ is_team_statused then acc.erase m else acc) fa

/-- Rule 36 (src/main.py lines 915-918): no double Trick Room. -/
def fmRule36 (lm : Option String) (fa : List String) : List String :=
  condErase (lm = some "trickroom") "trickroom" fa

/-- Rules 29-36 (the tail of `filter_suboptimal_moves`). -/
def rules_29_end (b : Battle) (lm : Option String) (fa : List String) :
    List String :=
  fmRule36 lm (fmRule33 b (fmRule30 b (fmRule29 lm fa)))

/-- Rule 27 (src/main.py lines 871-891) and everything after it: a switch
is forced against a special wall when no physical attack is available. -/
def rules_27_end (b : Battle) (lm : Option String) (fa : List String) :
    List String :=
  if [("blissey" : String), "chansey"].contains
      (strLower b.opponent_active_pokemon.species) ∧
      ¬ b.available_moves.any (fun m => m.category = .physical) then
    let vs := filter_suboptimal_switches b (switchNames b)
    if ¬ vs.isEmpty then vs else rules_29_end b lm fa
  else rules_29_end b lm fa

/-- Rule 26 scenario 2 (src/main.py lines 852-869) and everything after
it: taunted with only bad attacks, or taunted with no attacks at all. -/
def rules_26b_end (b : Battle) (lm : Option String)
    (dm : List (String × DmgInfo)) (fa : List String) : List String :=
  if b.active_pokemon.effects.contains .taunt then
    if ¬ b.available_moves.isEmpty then
      if b.available_moves.all (fun m =>
          ((dmgGet dm m.id).map (fun i => i.multiplier)).getD 1 < 1) then
        let vs := filter_suboptimal_switches b (switchNames b)
        if ¬ vs.isEmpty then vs else rules_27_end b lm fa
      else rules_27_end b lm fa
    else filter_suboptimal_switches b (switchNames b)
  else rules_27_end b lm fa

/-- Rule 26 scenario 1 (src/main.py lines 814-850) and everything after
it. -/
def rules_26a_end (b : Battle) (lm : Option String)
    (dm : List (String × DmgInfo)) (fa : List String) : List String :=
  if b.active_pokemon.effects.contains .encore ∧
      b.available_moves.length = 1 ∧ rule26_encore_force b dm then
    let vs := filter_suboptimal_switches b (switchNames b)
    if ¬ vs.isEmpty then vs else rules_26b_end b lm dm fa
  else rules_26b_end b lm dm fa

/-- Rule 24 (src/main.py lines 789-803) and everything after it: a
Truant loaf forces the switch subset (possibly empty). -/
def rules_24_end (b : Battle) (lm : Option String)
    (dm : List (String × DmgInfo)) (fa : List String) : List String :=
  if b.active_pokemon.ability = some "truant" ∧
      b.active_pokemon.must_recharge then
    fa.filter (fun a => strStartsWith a "switch-")
  else rules_26a_end b lm dm (fmRule25 fa)

/-- Rules 16-24 and everything after them. -/
def rules_16_end (b : Battle) (lm : Option String)
    (dm : List (String × DmgInfo)) (fa : List String) : List String :=
  rules_24_end b lm dm (fmRule23 b (fmRule22 b (fmRule21 b (fmRule20 b dm
    (fmRule18 b (fmRule17 lm (fmRule16 b fa)))))))

/-- Rule 15 (src/main.py lines 671-700) and everything after it. -/
def rules_15_end (b : Battle) (lm : Option String)
    (dm : List (String × DmgInfo)) (fa : List String) : List String :=
  if rule15_force_switch b then
    let vs := filter_suboptimal_switches b (switchNames b)
    if vs.isEmpty then fa else vs
  else rules_16_end b lm dm fa

/-- Rules 11-15 and everything after them. -/
def rules_11_end (b : Battle) (lm : Option String)
    (dm : List (String × DmgInfo)) (fa : List String) : List String :=
  rules_15_end b lm dm (fmRule14 b (fmRule13half b (fmRule13 b
    (fmRule12 lm (fmRule11 b fa)))))

/-- Rule 10 (src/main.py lines 572-595) and everything after it: forced
sleep handling.  The sleep-talk branch does not return: it rebuilds the
working set and the later rules still run on it. -/
def rules_10_end (b : Battle) (lm : Option String)
    (dm : List (String × DmgInfo)) (legal_actions fa : List String) :
    List String :=
  if b.active_pokemon.status = some .slp then
    if b.active_pokemon.status_counter ≤ 1 then
      if legal_actions.contains "sleeptalk" then
        rules_11_end b lm dm
          ("sleeptalk" :: fa.filter (fun a => strStartsWith a "switch-"))
      else fa.filter (fun a => strStartsWith a "switch-")
    else fa.filter (fun a => strStartsWith a "switch-")
  else rules_11_end b lm dm (fa.erase "sleeptalk")

/-- Rules 6-10 and everything after them. -/
def rules_6_end (b : Battle) (lm : Option String)
    (dm : List (String × DmgInfo)) (legal_actions fa : List String) :
    List String :=
  rules_10_end b lm dm legal_actions
    (fmRule9 b (fmRule8 b (fmRule7 b dm (fmRule6 b dm fa))))

/-- Rule 5 (src/main.py lines 502-519) and everything after it: locked
into a single not-very-effective move. -/
def rules_5_end (b : Battle) (lm : Option String)
    (dm : List (String × DmgInfo)) (legal_actions fa : List String) :
    List String :=
  match b.available_moves with
  | [locked] =>
    if b.opponent_active_pokemon.damage_multiplier locked < 1 then
      let vs := filter_suboptimal_switches b (switchNames b)
      if vs.isEmpty then fa else vs
    else rules_6_end b lm dm legal_actions fa
  | _ => rules_6_end b lm dm legal_actions fa

/-- `filter_suboptimal_moves` (src/main.py lines 380-920), assembled from
the rule segments above in source order. -/
def filter_suboptimal_moves (b : Battle) (lm : Option String)
    (legal_actions : List String) (dm : List (String × DmgInfo)) :
    List String :=
  rules_5_end b lm dm legal_actions
    (fmRule4 b (fmRule3 b (fmRule2 b (fmRule1 b
      (override_phase b legal_actions dm)))))

/-- The candidate-action list handed to the decision-maker in
`choose_move` (src/main.py lines 1169-1190): filtered moves, plus filtered
switches unless the previous turn was a switch. -/
def legal_actions_for_turn (b : Battle) (lm : Option String)
    (just_switched : Bool) : List String :=
  let dm := calculate_move_damages b lm
  let legal_moves := b.available_moves.map Move.id
  let fm := filter_suboptimal_moves b lm legal_moves dm
  let fs := filter_suboptimal_switches b (switchNames b)
  if just_switched then fm else fm ++ fs

/-- A committed order: the sole externally observable output of a turn. -/
inductive Order
  | useMove (id : String)
  | useSwitch (species : String)
  | defaultOrder
  | crashed
deriving DecidableEq, Repr

/-- Modelled from the spec: `select_best_damage_move` falls back to
`poke_env`'s `Player.choose_random_move`, which is not part of this
repository.  §4.4 of the spec describes this fallback as picking a
uniformly random legal switch, so it is modelled as indexing the legal
switch list with a random draw `r` (uniform in `r` means uniform over the
list). -/
def choose_random_move_order (b : Battle) (r : Nat) : Order :=
  match b.available_switches with
  | [] => Order.defaultOrder
  | p :: rest => Order.useSwitch (((p :: rest).getD
      (r % (p :: rest).length) p).species)

/-- The selection loop of `select_best_damage_move` (src/main.py lines
970-977): scan the damage map in order, keeping the first entry whose
expected damage strictly exceeds the running maximum, which starts at the
`-1` sentinel. -/
def best_loop : List (String × DmgInfo) → Option String → ℚ →
    Option String × ℚ
  | [], best, mx => (best, mx)
  | p :: rest, best, mx =>
    if mx < p.2.expected_damage then
      best_loop rest (some p.1) p.2.expected_damage
    else best_loop rest best mx

/-- `select_best_damage_move` (src/main.py lines 966-986).  The `crashed`
outcome marks the source's `next(..., None)` returning `None` and the
subsequent attribute access failing; it is unreachable because the damage
map's keys all come from `available_moves`. -/
def select_best_damage_move (b : Battle) (lm : Option String) (r : Nat) :
    Order :=
  let dm := calculate_move_damages b lm
  let res := best_loop dm none (-1)
  match res.1 with
  | some id =>
    if id ≠ "" then
      match b.available_moves.find? (fun m => m.id = id) with
      | some mv => Order.useMove mv.id
      | none => Order.crashed
    else choose_random_move_order b r
  | none => choose_random_move_order b r

/-- The decision reached by the retry loop of `choose_move`. -/
inductive Decision
  | move (id : String)
  | switchTo (species : String)
  | fallback
deriving DecidableEq, Repr

/-- One iteration of the retry loop of `choose_move` (src/main.py lines
1202-1230): an absent or falsy response retries; otherwise the response is
sanitized and accepted only when it is an exact member of the candidate
list and resolves to a real switch or move object. -/
def attempt_response (b : Battle) (legal_actions : List String)
    (resp : Option String) : Option Decision :=
  match resp with
  | none => none
  | some r =>
    if r = "" then none
    else
      let cleaned := sanitize_model_response r
      if legal_actions.contains cleaned then
        if strStartsWith cleaned "switch-" then
          match b.available_switches.find?
              (fun p => speciesKey p = strRemoveAll cleaned "switch-") with
          | some p => some (Decision.switchTo p.species)
          | none => none
        else
          match b.available_moves.find? (fun m => m.id = cleaned) with
          | some mv => some (Decision.move mv.id)
          | none => none
      else none

/-- The retry loop of `choose_move` over a list of decision-maker
responses: the first accepted response wins, and an exhausted list falls
back (`select_best_damage_move`). -/
def choose_action_loop (b : Battle) (legal_actions : List String) :
    List (Option String) → Decision
  | [] => Decision.fallback
  | resp :: rest =>
    match attempt_response b legal_actions resp with
    | some d => d
    | none => choose_action_loop b legal_actions rest

/-- `max_retries` (src/main.py line 1201). -/
def max_retries : Nat := 3

/-- The decision committed by `choose_move` (src/main.py lines 1201-1233)
given the candidate list and the sequence of decision-maker responses: at
most `max_retries` responses are consumed. -/
def choose_move_decision (b : Battle) (legal_actions : List String)
    (responses : List (Option String)) : Decision :=
  choose_action_loop b legal_actions (responses.take max_retries)

/-- The overall outcome of `choose_move`'s retry section (src/main.py
lines 1201-1233): an accepted move or switch is committed directly; when
all retries fail, `select_best_damage_move` decides. -/
def committed_order (b : Battle) (lm : Option String)
    (legal_actions : List String) (responses : List (Option String))
    (r : Nat) : Order :=
  match choose_move_decision b legal_actions responses with
  | .move id => Order.useMove id
  | .switchTo s => Order.useSwitch s
  | .fallback => select_best_damage_move b lm r

/-! ## Concrete fixtures used by witnesses and counterexamples -/

/-- A plain Pokémon fixture; witnesses override individual fields. -/
def basePoke : Pokemon :=
  { species := "pidove", current_hp_fraction := 1, spe_stat := 50,
    boosts := [], status := none, status_counter := 0,
    ability := some "bigpecks", possible_abilities := ["bigpecks"],
    item := none, types := [.normal], effects := [],
    must_recharge := false, fainted := false, weight := 10,
    moves := [], turn_count := 1 }

/-- A plain battle fixture; witnesses override individual fields. -/
def baseBattle : Battle :=
  { gen := 9, turn := 1, active_pokemon := basePoke,
    opponent_active_pokemon := basePoke, available_moves := [],
    available_switches := [], weather := none, fields := [],
    side_conditions := [], opponent_side_conditions := [],
    team := [], opponent_team := [] }

/-- A physical Ground-type attack fixture. -/
def earthquakeMv : Move :=
  { id := "earthquake", base_power := 100, type := .ground,
    category := .physical, accuracy := 100, priority := 0, crit_stage := 0,
    flags := [], boosts := [], recoil := 0 }

/-- A Fire-type bench Pokémon fixture (weak to `earthquakeMv`). -/
def magmarPoke : Pokemon :=
  { basePoke with
    species := "magmar"
    types := [.fire] }

/-- Battle fixture for the Viable Switch Filter: the opponent has revealed
a Ground move and the only bench Pokémon is Fire-typed. -/
def bC5 : Battle :=
  { baseBattle with
    opponent_active_pokemon :=
      { basePoke with
        species := "dugtrio"
        types := [.ground]
        moves := [earthquakeMv] }
    available_switches := [magmarPoke] }

/-- A plain physical Normal-type contact attack fixture. -/
def tackleMv : Move :=
  { id := "tackle", base_power := 40, type := .normal,
    category := .physical, accuracy := 100, priority := 0, crit_stage := 0,
    flags := ["contact"], boosts := [], recoil := 0 }

/-- Battle fixture with one plain attack and no special-case overrides. -/
def bC2 : Battle :=
  { baseBattle with available_moves := [tackleMv] }

/-- The unknown-ability modifier as the spec's sentence reads (§4.1 step
2): the plain minimum ("most damage-reducing") of the defensive-ability
modifiers across all the defender's possible abilities.  Definition taken
from the spec's words, for comparison with the code's
`worst_case_modifier`. -/
def spec_min_ability_modifier (o : Pokemon) (mv : Move) (mt : PType)
    (e : ℚ) : ℚ :=
  match o.possible_abilities.map
      (fun a => get_defensive_modifier o mv mt e a) with
  | [] => 1
  | x :: xs => xs.foldl min x

/-- A Fire-type special non-contact attack fixture. -/
def flameMv : Move :=
  { id := "flamethrower", base_power := 90, type := .fire,
    category := .special, accuracy := 100, priority := 0, crit_stage := 0,
    flags := [], boosts := [], recoil := 0 }

/-- A Grass-type defender whose only possible ability is Fluffy, which
doubles incoming Fire damage. -/
def oppC3 : Pokemon :=
  { basePoke with
    species := "wooloo"
    ability := none
    possible_abilities := ["fluffy"]
    types := [.grass] }

/-- Battle fixture for C3. -/
def bC3 : Battle :=
  { baseBattle with
    opponent_active_pokemon := oppC3
    available_moves := [flameMv] }

/-- The loyalty-move fixture: `return` has nominal base power 0 (its real
power comes from the happiness substitution, fixed to 102 in step 1). -/
def returnMv : Move :=
  { id := "return", base_power := 0, type := .normal,
    category := .physical, accuracy := 100, priority := 0, crit_stage := 0,
    flags := [], boosts := [], recoil := 0 }

/-- Battle fixture for C4: a Fighting-type defender (so the Normal-type
`return` hits at a plain 1× with no short-circuit). -/
def bC4 : Battle :=
  { baseBattle with
    opponent_active_pokemon :=
      { basePoke with
        species := "machop"
        types := [.fighting] }
    available_moves := [returnMv] }

/-- A Water-type special attack fixture. -/
def watergunMv : Move :=
  { id := "watergun", base_power := 40, type := .water,
    category := .special, accuracy := 100, priority := 0, crit_stage := 0,
    flags := [], boosts := [], recoil := 0 }

/-- Battle fixture for C9: an Analytic attacker on turn 2. -/
def bC9 : Battle :=
  { baseBattle with
    turn := 2
    active_pokemon :=
      { basePoke with
        species := "porygon"
        ability := some "analytic" }
    available_moves := [watergunMv] }

/-- Battle fixture with no moves and one bench Pokémon. -/
def bC7 : Battle :=
  { baseBattle with available_switches := [magmarPoke] }

/-- A high-power recharge move fixture (special-category Hyper Beam). -/
def hyperbeamMv : Move :=
  { id := "hyperbeam", base_power := 150, type := .normal,
    category := .special, accuracy := 90, priority := 0, crit_stage := 0,
    flags := [], boosts := [], recoil := 0 }

/-- Battle fixture for C1: the opponent is below half HP, our side is
faster, and the only move crosses the kill-securing threshold. -/
def bC1 : Battle :=
  { baseBattle with
    active_pokemon :=
      { basePoke with
        species := "snorlax"
        spe_stat := 100 }
    opponent_active_pokemon :=
      { basePoke with
        species := "ratata"
        current_hp_fraction := 2/5
        spe_stat := 50 }
    available_moves := [hyperbeamMv]
    team := [basePoke, basePoke] }

/-- The wake-up-compatible move fixture (status-category Sleep Talk). -/
def sleeptalkMv : Move :=
  { id := "sleeptalk", base_power := 0, type := .normal,
    category := .status, accuracy := 100, priority := 0, crit_stage := 0,
    flags := [], boosts := [], recoil := 0 }

/-- A plain Normal-type bench Pokémon fixture (not weak to anything the
opponent fixture shows). -/
def bidoofPoke : Pokemon :=
  { basePoke with
    species := "bidoof" }

/-- Battle fixture for the C6 counterexample: the active Pokémon is asleep
with one remaining sleep turn and knows Sleep Talk, but the opponent is
behind a Substitute, so the later status-move rule strikes the wake-up
move from the working set. -/
def bC6 : Battle :=
  { baseBattle with
    active_pokemon :=
      { basePoke with
        species := "snorlax"
        status := some .slp
        status_counter := 1 }
    opponent_active_pokemon :=
      { basePoke with
        species := "dusclops"
        effects := [.substitute] }
    available_moves := [sleeptalkMv]
    available_switches := [bidoofPoke]
    team := [basePoke, basePoke] }

/-- Battle fixture for the C6 witness: as `bC6` but with no Substitute (or
any other interference), so the sleep branch's output survives to the end
of the pipeline. -/
def bC6w : Battle :=
  { baseBattle with
    active_pokemon :=
      { basePoke with
        species := "snorlax"
        status := some .slp
        status_counter := 1 }
    opponent_active_pokemon :=
      { basePoke with
        species := "dusclops" }
    available_moves := [sleeptalkMv]
    available_switches := [bidoofPoke]
    team := [basePoke, basePoke] }

/-- A plain strong physical attack fixture (recoil move, matched by no
removal rule). -/
def doubleedgeMv : Move :=
  { id := "doubleedge", base_power := 120, type := .normal,
    category := .physical, accuracy := 100, priority := 0, crit_stage := 0,
    flags := [], boosts := [], recoil := 1/3 }

/-- Battle fixture for the C1 witness: no override fires and no filter
rule matches, so the move survives the whole pipeline. -/
def bC1w : Battle :=
  { baseBattle with
    active_pokemon :=
      { basePoke with
        species := "tauros" }
    opponent_active_pokemon :=
      { basePoke with
        species := "ratata" }
    available_moves := [doubleedgeMv]
    team := [basePoke, basePoke] }

/-! ## C5: the Viable Switch Filter never empties a non-empty input -/

/-- C5: for every battle state and every non-empty input list of switch
candidates, `filter_suboptimal_switches` returns a non-empty list; and
whenever its weakness criteria would remove every candidate, it returns
the original unfiltered input list unchanged. -/
theorem C5_viable_switch_filter (b : Battle) (l : List String) :
    (l ≠ [] → filter_suboptimal_switches b l ≠ []) ∧
    ((∀ s ∈ l, switch_is_suboptimal b s = true) →
      filter_suboptimal_switches b l = l) := by
  constructor
  · intro hne
    unfold filter_suboptimal_switches
    rw [if_neg (by simpa [List.isEmpty_iff] using hne)]
    by_cases hall : (l.filter (fun s => switch_is_suboptimal b s)).length
        = l.length
    · rw [if_pos hall]; exact hne
    · rw [if_neg hall]
      have hex : ∃ a ∈ l, ¬ switch_is_suboptimal b a = true := by
        by_contra hcon
        push_neg at hcon
        exact hall (by rw [List.filter_eq_self.mpr hcon])
      obtain ⟨a, ha, hpa⟩ := hex
      intro hres
      have hmem : a ∈ l.filter (fun s => ¬ switch_is_suboptimal b s) := by
        simp only [List.mem_filter, decide_not]
        exact ⟨ha, by simp [hpa]⟩
      rw [hres] at hmem
      exact (List.not_mem_nil a) hmem
  · intro hall
    unfold filter_suboptimal_switches
    by_cases hl : l = []
    · subst hl; simp
    · rw [if_neg (by simpa [List.isEmpty_iff] using hl)]
      rw [if_pos (by rw [List.filter_eq_self.mpr hall])]

/-- Witness for C5 at a concrete battle where the weakness criterion
removes every candidate: the filter keeps the full list. -/
theorem C5_viable_switch_filter_witness :
    filter_suboptimal_switches bC5 ["switch-magmar"] ≠ [] ∧
    filter_suboptimal_switches bC5 ["switch-magmar"] = ["switch-magmar"] :=
  ⟨(C5_viable_switch_filter bC5 ["switch-magmar"]).1 (by decide),
   (C5_viable_switch_filter bC5 ["switch-magmar"]).2
     (by with_unfolding_all decide)⟩

/-! ## C2 helper lemmas: chart values, nonnegativity, damage-map shape -/

theorem typeChart_cases (a d : PType) :
    typeChart a d = 0 ∨ typeChart a d = 1/2 ∨ typeChart a d = 1 ∨
      typeChart a d = 2 := by
  revert a d
  with_unfolding_all decide

theorem typeChart_nonneg (a d : PType) : 0 ≤ typeChart a d := by
  rcases typeChart_cases a d with h | h | h | h <;> rw [h] <;> norm_num

theorem type_multiplier_nonneg (p : Pokemon) (t : PType) :
    0 ≤ p.type_multiplier t := by
  unfold Pokemon.type_multiplier
  apply List.prod_nonneg
  intro x hx
  rw [List.mem_map] at hx
  obtain ⟨dt, _, rfl⟩ := hx
  exact typeChart_nonneg t dt

theorem condZero_nonneg {c : Prop} [Decidable c] {x : ℚ} (hx : 0 ≤ x) :
    0 ≤ if c then 0 else x := by
  split_ifs
  · exact le_refl 0
  · exact hx

theorem condFactor_nonneg {c : Prop} [Decidable c] {k : ℚ} (hk : 0 ≤ k) :
    0 ≤ condFactor c k := by
  unfold condFactor
  split_ifs
  · exact hk
  · norm_num

theorem condMul_nonneg {c : Prop} [Decidable c] {p k : ℚ}
    (hp : 0 ≤ p) (hk : 0 ≤ k) : 0 ≤ if c then p * k else p := by
  split_ifs
  · exact mul_nonneg hp hk
  · exact hp

theorem condVal_pos {c : Prop} [Decidable c] {k x : ℚ}
    (hk : 0 < k) (hx : 0 < x) : 0 < if c then k else x := by
  split_ifs
  · exact hk
  · exact hx

theorem condVal_nonneg {c : Prop} [Decidable c] {k x : ℚ}
    (hk : 0 ≤ k) (hx : 0 ≤ x) : 0 ≤ if c then k else x := by
  split_ifs
  · exact hk
  · exact hx

theorem get_defensive_modifier_nonneg (o : Pokemon) (mv : Move)
    (mt : PType) (e : ℚ) (a : String) :
    0 ≤ get_defensive_modifier o mv mt e a := by
  unfold get_defensive_modifier
  repeat' apply condZero_nonneg
  repeat' apply mul_nonneg
  all_goals first
    | exact condFactor_nonneg (by norm_num)
    | norm_num

theorem worst_case_modifier_nonneg (o : Pokemon) (mv : Move) (mt : PType)
    (e : ℚ) : 0 ≤ worst_case_modifier o mv mt e := by
  unfold worst_case_modifier
  have h : ∀ (l : List String) (w : ℚ), 0 ≤ w →
      0 ≤ l.foldl (fun w a =>
        let m := get_defensive_modifier o mv mt e a
        if m < w then m else w) w := by
    intro l
    induction l with
    | nil => intro w hw; simpa using hw
    | cons a tl ih =>
      intro w hw
      rw [List.foldl_cons]
      apply ih
      dsimp only
      split_ifs
      · exact get_defensive_modifier_nonneg o mv mt e a
      · exact hw
  exact h _ 1 (by norm_num)

theorem defensive_factor_nonneg (o : Pokemon) (mv : Move) (mt : PType)
    (e : ℚ) : 0 ≤ defensive_factor o mv mt e := by
  unfold defensive_factor
  rcases o.ability with _ | a
  · exact worst_case_modifier_nonneg o mv mt e
  · dsimp only
    split_ifs
    · exact get_defensive_modifier_nonneg o mv mt e a
    · exact worst_case_modifier_nonneg o mv mt e

theorem compute_effectiveness_nonneg (b : Battle) (mv : Move) (mt : PType) :
    0 ≤ compute_effectiveness b mv mt := by
  unfold compute_effectiveness
  have h1 : 0 ≤ b.opponent_active_pokemon.damage_multiplier mv *
      defensive_factor b.opponent_active_pokemon mv mt
        (b.opponent_active_pokemon.damage_multiplier mv) :=
    mul_nonneg (type_multiplier_nonneg _ _) (defensive_factor_nonneg _ _ _ _)
  dsimp only
  split_ifs
  · exact mul_nonneg h1 (by norm_num)
  · exact h1

theorem stab_power_nonneg (active : Pokemon) (mv : Move) (s : Bool) :
    0 ≤ stab_power active mv s := by
  unfold stab_power
  dsimp only
  split_ifs <;> positivity

theorem ability_power_boost_pos (b : Battle) (lm : Option String)
    (active : Pokemon) (mv : Move) (mt : PType) :
    0 < ability_power_boost b lm active mv mt := by
  unfold ability_power_boost
  repeat' apply condVal_pos
  all_goals norm_num

theorem weather_terrain_power_nonneg (b : Battle) (active : Pokemon)
    (mt : PType) {p : ℚ} (hp : 0 ≤ p) :
    0 ≤ weather_terrain_power b active mt p := by
  unfold weather_terrain_power
  repeat' apply mul_nonneg
  all_goals first
    | exact condFactor_nonneg (by norm_num)
    | exact hp

theorem final_damage_modifier_nonneg (b : Battle) (active opponent : Pokemon)
    (mv : Move) : 0 ≤ final_damage_modifier b active opponent mv := by
  unfold final_damage_modifier
  repeat' apply mul_nonneg
  all_goals first
    | exact condFactor_nonneg (by norm_num)
    | norm_num

theorem freezedry_effectiveness_nonneg (o : Pokemon) :
    0 ≤ freezedry_effectiveness o := by
  unfold freezedry_effectiveness
  have h : ∀ (l : List PType) (e : ℚ), 0 ≤ e →
      0 ≤ l.foldl (fun e t => if t = .water then e * 2 else e * typeChart t .ice) e := by
    intro l
    induction l with
    | nil => intro e he; simpa using he
    | cons t tl ih =>
      intro e he
      rw [List.foldl_cons]
      apply ih
      split_ifs
      · exact mul_nonneg he (by norm_num)
      · exact mul_nonneg he (typeChart_nonneg t .ice)
  exact h _ 1 (by norm_num)

theorem get_crit_chance_nonneg (b : Battle) (mv : Move) (p : Pokemon) :
    0 ≤ get_crit_chance b mv p := by
  unfold get_crit_chance
  dsimp only
  split_ifs <;> norm_num

theorem get_crit_damage_multiplier_ge_one (b : Battle) (p : Pokemon) :
    1 ≤ get_crit_damage_multiplier b p := by
  unfold get_crit_damage_multiplier
  split_ifs <;> norm_num

theorem move_damage_entry_nonneg (b : Battle) (lm : Option String)
    (mv : Move) : 0 ≤ (move_damage_entry b lm mv).expected_damage := by
  unfold move_damage_entry
  dsimp only
  rw [apply_ite DmgInfo.expected_damage]
  by_cases h1 : mv.category = MoveCategory.status ∨
      compute_effectiveness b mv
        (resolve_power_type b b.active_pokemon
          b.opponent_active_pokemon mv).2 = 0
  · rw [if_pos h1]
  · rw [if_neg h1]
    dsimp only
    apply mul_nonneg
    apply mul_nonneg
    · positivity
    · apply mul_nonneg
      apply mul_nonneg
      · exact weather_terrain_power_nonneg _ _ _
          (mul_nonneg (stab_power_nonneg _ _ _)
            (le_of_lt (ability_power_boost_pos _ _ _ _ _)))
      · split_ifs with h2
        · exact freezedry_effectiveness_nonneg _
        · exact compute_effectiveness_nonneg _ _ _
      · exact final_damage_modifier_nonneg _ _ _ _
    · have hc1 := get_crit_chance_nonneg b mv b.active_pokemon
      have hc2 := get_crit_damage_multiplier_ge_one b b.active_pokemon
      nlinarith

theorem keys_dmgInsert_overwrite (d : List (String × DmgInfo)) (k : String)
    (v : DmgInfo) (h : d.any (fun p => p.1 = k) = true) :
    (dmgInsert d k v).map Prod.fst = d.map Prod.fst := by
  unfold dmgInsert
  rw [if_pos h, List.map_map]
  apply List.map_congr_left
  intro p _
  by_cases hpk : p.1 = k
  · simp only [Function.comp_apply, if_pos hpk]
    exact hpk.symm
  · simp only [Function.comp_apply, if_neg hpk]

theorem mem_keys_dmgInsert (d : List (String × DmgInfo)) (k : String)
    (v : DmgInfo) (k' : String) :
    (k' ∈ (dmgInsert d k v).map Prod.fst) ↔
      k' ∈ d.map Prod.fst ∨ k' = k := by
  by_cases h : d.any (fun p => p.1 = k) = true
  · rw [keys_dmgInsert_overwrite d k v h]
    constructor
    · exact Or.inl
    · rintro (hk | rfl)
      · exact hk
      · rw [List.any_eq_true] at h
        obtain ⟨p, hp, he⟩ := h
        rw [List.mem_map]
        exact ⟨p, hp, by simpa using he⟩
  · unfold dmgInsert
    rw [if_neg h, List.map_append]
    simp

theorem nodup_keys_dmgInsert (d : List (String × DmgInfo)) (k : String)
    (v : DmgInfo) (h : (d.map Prod.fst).Nodup) :
    ((dmgInsert d k v).map Prod.fst).Nodup := by
  by_cases hk : d.any (fun p => p.1 = k) = true
  · rwa [keys_dmgInsert_overwrite d k v hk]
  · unfold dmgInsert
    rw [if_neg hk, List.map_append]
    rw [List.nodup_append]
    refine ⟨h, by simp, ?_⟩
    intro a ha hb
    simp only [List.map_cons, List.map_nil, List.mem_singleton] at hb
    subst hb
    rw [List.mem_map] at ha
    obtain ⟨p, hp, hpk⟩ := ha
    exact hk (List.any_eq_true.mpr ⟨p, hp, by simpa using hpk⟩)

theorem mem_dmgInsert (d : List (String × DmgInfo)) (k : String)
    (v : DmgInfo) (p : String × DmgInfo) (h : p ∈ dmgInsert d k v) :
    p ∈ d ∨ p = (k, v) := by
  unfold dmgInsert at h
  split_ifs at h with hk
  · rw [List.mem_map] at h
    obtain ⟨q, hq, he⟩ := h
    by_cases hqk : q.1 = k
    · right
      rw [if_pos hqk] at he
      exact he.symm
    · left
      rw [if_neg hqk] at he
      exact he ▸ hq
  · rw [List.mem_append] at h
    rcases h with h | h
    · exact Or.inl h
    · right
      simpa using h

theorem calc_fold_mem_keys (b : Battle) (lm : Option String) :
    ∀ (ms : List Move) (d : List (String × DmgInfo)) (k : String),
    (k ∈ ((ms.foldl (fun d mv =>
        dmgInsert d mv.id (move_damage_entry b lm mv)) d).map Prod.fst)) ↔
      k ∈ d.map Prod.fst ∨ k ∈ ms.map Move.id := by
  intro ms
  induction ms with
  | nil => intro d k; simp
  | cons mv tl ih =>
    intro d k
    rw [List.foldl_cons, ih, mem_keys_dmgInsert]
    simp only [List.map_cons, List.mem_cons]
    tauto

theorem calc_fold_nodup (b : Battle) (lm : Option String) :
    ∀ (ms : List Move) (d : List (String × DmgInfo)),
    (d.map Prod.fst).Nodup →
    ((ms.foldl (fun d mv =>
        dmgInsert d mv.id (move_damage_entry b lm mv)) d).map Prod.fst).Nodup := by
  intro ms
  induction ms with
  | nil => intro d h; simpa using h
  | cons mv tl ih =>
    intro d h
    rw [List.foldl_cons]
    exact ih _ (nodup_keys_dmgInsert _ _ _ h)

theorem calc_fold_entries (b : Battle) (lm : Option String) :
    ∀ (ms : List Move) (d : List (String × DmgInfo)) (p : String × DmgInfo),
    p ∈ ms.foldl (fun d mv =>
        dmgInsert d mv.id (move_damage_entry b lm mv)) d →
    p ∈ d ∨ ∃ mv, mv ∈ ms ∧ p = (mv.id, move_damage_entry b lm mv) := by
  intro ms
  induction ms with
  | nil => intro d p h; exact Or.inl h
  | cons mv tl ih =>
    intro d p h
    rw [List.foldl_cons] at h
    rcases ih _ p h with h1 | ⟨mw, hmw, rfl⟩
    · rcases mem_dmgInsert _ _ _ _ h1 with h2 | rfl
      · exact Or.inl h2
      · exact Or.inr ⟨mv, List.mem_cons_self mv tl, rfl⟩
    · exact Or.inr ⟨mw, List.mem_cons_of_mem _ hmw, rfl⟩

theorem prod_pair_mem (x y : ℚ)
    (hx : x = 0 ∨ x = 1/2 ∨ x = 1 ∨ x = 2)
    (hy : y = 0 ∨ y = 1/2 ∨ y = 1 ∨ y = 2) :
    x * y ∈ ({0, 1/4, 1/2, 1, 2, 4} : Set ℚ) := by
  simp only [Set.mem_insert_iff, Set.mem_singleton_iff]
  rcases hx with rfl | rfl | rfl | rfl <;>
    rcases hy with rfl | rfl | rfl | rfl <;> norm_num

theorem type_multiplier_mem (p : Pokemon) (t : PType)
    (h : p.types.length ≤ 2) :
    p.type_multiplier t ∈ ({0, 1/4, 1/2, 1, 2, 4} : Set ℚ) := by
  unfold Pokemon.type_multiplier
  rcases hts : p.types with _ | ⟨a, _ | ⟨c, _ | ⟨e, tl⟩⟩⟩
  · simp
  · simp only [List.map_cons, List.map_nil, List.prod_cons, List.prod_nil,
      mul_one]
    rcases typeChart_cases t a with h1 | h1 | h1 | h1 <;> rw [h1] <;>
      simp only [Set.mem_insert_iff, Set.mem_singleton_iff] <;> norm_num
  · simp only [List.map_cons, List.map_nil, List.prod_cons, List.prod_nil,
      mul_one]
    exact prod_pair_mem _ _ (typeChart_cases t a) (typeChart_cases t c)
  · exfalso
    rw [hts] at h
    simp at h

/-- C2: for every snapshot, the Damage Estimation Model returns a map with
exactly one entry per id in `battle.available_moves` (the key set is the
move-id set and keys never repeat), every entry has `expected_damage ≥ 0`,
every entry is the recorded entry of one of the available moves, and —
absent the special-case overrides (a non-unit defensive-ability factor,
the Tinted Lens attacker ability, the Freeze-Dry override, or more than
two defender types) — any move's recorded effectiveness multiplier lies in
`{0, 1/4, 1/2, 1, 2, 4}`. -/
theorem C2_damage_map_contract (b : Battle) (lm : Option String) :
    (∀ k, k ∈ (calculate_move_damages b lm).map Prod.fst ↔
      k ∈ b.available_moves.map Move.id) ∧
    ((calculate_move_damages b lm).map Prod.fst).Nodup ∧
    (∀ p ∈ calculate_move_damages b lm, 0 ≤ p.2.expected_damage) ∧
    (∀ p ∈ calculate_move_damages b lm,
      ∃ mv, mv ∈ b.available_moves ∧
        p = (mv.id, move_damage_entry b lm mv)) ∧
    (∀ mv ∈ b.available_moves,
      defensive_factor b.opponent_active_pokemon mv
        (resolve_power_type b b.active_pokemon
          b.opponent_active_pokemon mv).2
        (b.opponent_active_pokemon.damage_multiplier mv) = 1 →
      b.active_pokemon.ability ≠ some "tintedlens" →
      mv.id ≠ "freezedry" →
      b.opponent_active_pokemon.types.length ≤ 2 →
      (move_damage_entry b lm mv).multiplier ∈
        ({0, 1/4, 1/2, 1, 2, 4} : Set ℚ)) := by
  have hent : ∀ p ∈ calculate_move_damages b lm,
      ∃ mv, mv ∈ b.available_moves ∧
        p = (mv.id, move_damage_entry b lm mv) := by
    intro p hp
    unfold calculate_move_damages at hp
    rcases calc_fold_entries b lm _ _ _ hp with h | h
    · simp at h
    · exact h
  refine ⟨?_, ?_, ?_, hent, ?_⟩
  · intro k
    unfold calculate_move_damages
    rw [calc_fold_mem_keys]
    simp
  · unfold calculate_move_damages
    exact calc_fold_nodup b lm _ _ (by simp)
  · intro p hp
    obtain ⟨mv, _, rfl⟩ := hent p hp
    exact move_damage_entry_nonneg b lm mv
  · intro mv _ hdf htl hfd hty
    have hce : compute_effectiveness b mv
        (resolve_power_type b b.active_pokemon
          b.opponent_active_pokemon mv).2 =
        b.opponent_active_pokemon.damage_multiplier mv := by
      unfold compute_effectiveness
      dsimp only
      rw [hdf, mul_one]
      rw [if_neg]
      rintro ⟨hab, _⟩
      exact htl hab
    have hraw : b.opponent_active_pokemon.damage_multiplier mv ∈
        ({0, 1/4, 1/2, 1, 2, 4} : Set ℚ) :=
      type_multiplier_mem _ _ hty
    unfold move_damage_entry
    dsimp only
    rw [apply_ite DmgInfo.multiplier]
    split_ifs with h1
    · dsimp only
      rw [hce]
      exact hraw
    · dsimp only
      rw [hce]
      exact hraw

/-- Witness for C2: on a concrete special-case-free snapshot the recorded
multiplier is in the allowed set and the key set is the move-id set. -/
theorem C2_damage_map_contract_witness :
    (move_damage_entry bC2 none tackleMv).multiplier ∈
      ({0, 1/4, 1/2, 1, 2, 4} : Set ℚ) ∧
    (∀ k, k ∈ (calculate_move_damages bC2 none).map Prod.fst ↔
      k ∈ bC2.available_moves.map Move.id) :=
  ⟨(C2_damage_map_contract bC2 none).2.2.2.2 tackleMv
      (by with_unfolding_all decide)
      (by with_unfolding_all decide)
      (by with_unfolding_all decide)
      (by with_unfolding_all decide)
      (by with_unfolding_all decide),
   (C2_damage_map_contract bC2 none).1⟩

/-! ## C3: the defensive-ability factor -/

/-- C3 counterexample: for a Fire move against a defender whose only
possible ability is Fluffy (a damage-increasing modifier of 2), the code's
multiplier is the raw 2, not raw × minimum-modifier = 4: the worst-case
fold starts at 1 and never rises, so a damage-increasing modifier is
ignored, contradicting "the raw multiplier times the minimum modifier over
all possible abilities". -/
theorem C3_counterexample_fluffy :
    oppC3.ability = none ∧
    spec_min_ability_modifier oppC3 flameMv PType.fire
      (oppC3.damage_multiplier flameMv) = 2 ∧
    compute_effectiveness bC3 flameMv PType.fire = 2 ∧
    compute_effectiveness bC3 flameMv PType.fire ≠
      oppC3.damage_multiplier flameMv *
        spec_min_ability_modifier oppC3 flameMv PType.fire
          (oppC3.damage_multiplier flameMv) := by
  with_unfolding_all decide

theorem fold_min_let (f : String → ℚ) :
    ∀ (l : List String) (w : ℚ),
    l.foldl (fun w a =>
      let m := f a
      if m < w then m else w) w = (l.map f).foldl min w := by
  intro l
  induction l with
  | nil => intro w; rfl
  | cons a tl ih =>
    intro w
    rw [List.foldl_cons, List.map_cons, List.foldl_cons, ih]
    congr 1
    dsimp only
    by_cases h : f a < w
    · rw [if_pos h, min_def, if_neg (not_le.mpr h)]
    · rw [if_neg h, min_def, if_pos (le_of_not_lt h)]

/-- C3 (amended): immunity modifiers of 0 take precedence over any
multiplicative modifier; a known ability contributes exactly its own
modifier; an unknown ability contributes the minimum of 1 and the
modifiers over all its possible abilities (so a damage-increasing
modifier is never applied under uncertainty); and the effectiveness
multiplier is the raw type-chart multiplier times that factor (absent the
separate Tinted Lens attacker step). -/
theorem C3_defensive_modifier_amended (o : Pokemon) (mv : Move)
    (mt : PType) (e : ℚ) :
    (∀ a : String,
      ((a = "dryskin" ∧ mt = PType.water) ∨
       (a = "flashfire" ∧ mt = PType.fire) ∨
       (a = "levitate" ∧ mt = PType.ground) ∨
       ((a = "lightningrod" ∨ a = "motordrive" ∨ a = "voltabsorb") ∧
         mt = PType.electric) ∨
       (a = "sapsipper" ∧ mt = PType.grass) ∨
       ((a = "stormdrain" ∨ a = "waterabsorb") ∧ mt = PType.water)) →
      get_defensive_modifier o mv mt e a = 0) ∧
    (∀ a : String, o.ability = some a → a ≠ "" →
      defensive_factor o mv mt e = get_defensive_modifier o mv mt e a) ∧
    (o.ability = none →
      defensive_factor o mv mt e =
        (o.possible_abilities.map
          (fun a => get_defensive_modifier o mv mt e a)).foldl min 1) ∧
    (∀ b : Battle, b.opponent_active_pokemon = o →
      b.active_pokemon.ability ≠ some "tintedlens" →
      compute_effectiveness b mv mt =
        o.damage_multiplier mv *
          defensive_factor o mv mt (o.damage_multiplier mv)) := by
  refine ⟨?_, ?_, ?_, ?_⟩
  · intro a h
    unfold get_defensive_modifier
    rcases h with ⟨rfl, rfl⟩ | ⟨rfl, rfl⟩ | ⟨rfl, rfl⟩ |
      ⟨rfl | rfl | rfl, rfl⟩ | ⟨rfl, rfl⟩ | ⟨rfl | rfl, rfl⟩ <;> simp
  · intro a ha hne
    unfold defensive_factor
    rw [ha]
    dsimp only
    rw [if_pos hne]
  · intro ha
    unfold defensive_factor
    rw [ha]
    unfold worst_case_modifier
    exact fold_min_let _ _ 1
  · intro b hb htl
    unfold compute_effectiveness
    dsimp only
    rw [hb, if_neg]
    rintro ⟨hab, _⟩
    exact htl hab

/-- Witness for C3 (amended) at concrete inputs: a Dry Skin immunity gives
0, a known plain ability contributes its own modifier, the Fluffy-only
unknown-ability case folds to 1, and the multiplier is raw × factor. -/
theorem C3_defensive_modifier_amended_witness :
    get_defensive_modifier oppC3 flameMv PType.water 2 "dryskin" = 0 ∧
    defensive_factor basePoke flameMv PType.fire 2 =
      get_defensive_modifier basePoke flameMv PType.fire 2 "bigpecks" ∧
    defensive_factor oppC3 flameMv PType.fire 2 =
      ((oppC3.possible_abilities.map
        (fun a => get_defensive_modifier oppC3 flameMv PType.fire 2 a)).foldl
          min 1) ∧
    compute_effectiveness bC3 flameMv PType.fire =
      oppC3.damage_multiplier flameMv *
        defensive_factor oppC3 flameMv PType.fire
          (oppC3.damage_multiplier flameMv) :=
  ⟨(C3_defensive_modifier_amended oppC3 flameMv PType.water 2).1 "dryskin"
      (Or.inl ⟨rfl, rfl⟩),
   (C3_defensive_modifier_amended basePoke flameMv PType.fire 2).2.1
      "bigpecks" rfl (by decide),
   (C3_defensive_modifier_amended oppC3 flameMv PType.fire 2).2.2.1 rfl,
   (C3_defensive_modifier_amended oppC3 flameMv PType.fire 2).2.2.2 bC3
      rfl (by decide)⟩

/-! ## C4: variable-power resolution is discarded by the damaging branch -/

/-- C4 (code bug): step 1 resolves `return`'s effective power to 102, the
move is damaging and not immune, yet the recorded expected damage is 0
because the damaging branch resets `power = move.base_power` (src/main.py
line 298), discarding the resolved power. -/
theorem C4_variable_power_discarded :
    (resolve_power_type bC4 bC4.active_pokemon
      bC4.opponent_active_pokemon returnMv).1 = 102 ∧
    returnMv.category ≠ MoveCategory.status ∧
    compute_effectiveness bC4 returnMv PType.normal = 1 ∧
    dmgGet (calculate_move_damages bC4 none) "return" =
      some { expected_damage := 0, stab := true, multiplier := 1,
             priority := 0 } := by
  with_unfolding_all decide

/-! ## C9: the damage model reads the cross-turn `last_move` memory -/

/-- C9 counterexample: on the identical snapshot `bC9`, two runs that
differ only in the engine's persisted `self.last_move` produce different
damage maps — the Analytic branch of `calculate_move_damages` reads that
cross-turn memory, so the model is not a pure function of the snapshot
with no hidden state. -/
theorem C9_counterexample_hidden_state :
    calculate_move_damages bC9 (some "watergun") ≠
      calculate_move_damages bC9 none := by
  with_unfolding_all decide

theorem ability_power_boost_no_analytic (b : Battle) (lm lm' : Option String)
    (active : Pokemon) (mv : Move) (mt : PType)
    (h : active.ability ≠ some "analytic") :
    ability_power_boost b lm active mv mt =
      ability_power_boost b lm' active mv mt := by
  simp only [ability_power_boost]
  have h1 : ¬ (active.ability = some "analytic" ∧ 1 < b.turn ∧
      lm = some mv.id) := fun hc => h hc.1
  have h2 : ¬ (active.ability = some "analytic" ∧ 1 < b.turn ∧
      lm' = some mv.id) := fun hc => h hc.1
  rw [if_neg h1, if_neg h2]

theorem move_damage_entry_no_analytic (b : Battle) (lm lm' : Option String)
    (mv : Move) (h : b.active_pokemon.ability ≠ some "analytic") :
    move_damage_entry b lm mv = move_damage_entry b lm' mv := by
  simp only [move_damage_entry]
  rw [ability_power_boost_no_analytic b lm lm' b.active_pokemon mv
    (resolve_power_type b b.active_pokemon b.opponent_active_pokemon mv).2 h]

/-- C9 (amended): the Damage Estimation Model is a pure function of the
snapshot plus the persisted `lastActionTaken` memory; whenever the
attacker's ability is not Analytic, the result is independent of that
memory, so two runs on the same snapshot agree. -/
theorem C9_damage_model_memory_amended (b : Battle) (lm lm' : Option String)
    (h : b.active_pokemon.ability ≠ some "analytic") :
    calculate_move_damages b lm = calculate_move_damages b lm' := by
  unfold calculate_move_damages
  have hf : (fun (d : List (String × DmgInfo)) (mv : Move) =>
      dmgInsert d mv.id (move_damage_entry b lm mv)) =
      (fun d mv => dmgInsert d mv.id (move_damage_entry b lm' mv)) := by
    funext d mv
    rw [move_damage_entry_no_analytic b lm lm' mv h]
  rw [hf]

/-- Witness for C9 (amended): with a non-Analytic attacker, the damage map
does not depend on the remembered last move. -/
theorem C9_damage_model_memory_amended_witness :
    calculate_move_damages bC2 (some "tackle") =
      calculate_move_damages bC2 none :=
  C9_damage_model_memory_amended bC2 (some "tackle") none (by decide)

/-! ## C7: the Fallback Selector -/

theorem best_loop_cons (p : String × DmgInfo) (tl : List (String × DmgInfo))
    (b0 : Option String) (m0 : ℚ) :
    best_loop (p :: tl) b0 m0 =
      if m0 < p.2.expected_damage then
        best_loop tl (some p.1) p.2.expected_damage
      else best_loop tl b0 m0 := rfl

theorem best_loop_spec :
    ∀ (l : List (String × DmgInfo)) (b0 : Option String) (m0 : ℚ),
    (best_loop l b0 m0 = (b0, m0) ∧
      ∀ p ∈ l, p.2.expected_damage ≤ m0) ∨
    (∃ pre e suf, l = pre ++ e :: suf ∧
      (best_loop l b0 m0).1 = some e.1 ∧
      (best_loop l b0 m0).2 = e.2.expected_damage ∧
      m0 < e.2.expected_damage ∧
      (∀ p ∈ pre, p.2.expected_damage < e.2.expected_damage) ∧
      (∀ p ∈ l, p.2.expected_damage ≤ e.2.expected_damage)) := by
  intro l
  induction l with
  | nil =>
    intro b0 m0
    left
    exact ⟨rfl, by simp⟩
  | cons p tl ih =>
    intro b0 m0
    by_cases hlt : m0 < p.2.expected_damage
    · rw [show best_loop (p :: tl) b0 m0 =
          best_loop tl (some p.1) p.2.expected_damage by
        rw [best_loop_cons, if_pos hlt]]
      rcases ih (some p.1) p.2.expected_damage with ⟨hres, hall⟩ |
          ⟨pre', e, suf', hdec, h1, h2, h3, h4, h5⟩
      · right
        refine ⟨[], p, tl, by simp, ?_, ?_, hlt, by simp, ?_⟩
        · rw [hres]
        · rw [hres]
        · intro q hq
          rcases List.mem_cons.mp hq with rfl | hq
          · exact le_refl _
          · exact hall q hq
      · right
        refine ⟨p :: pre', e, suf', by rw [hdec, List.cons_append], h1, h2,
          lt_trans hlt h3, ?_, ?_⟩
        · intro q hq
          rcases List.mem_cons.mp hq with rfl | hq
          · exact h3
          · exact h4 q hq
        · intro q hq
          rcases List.mem_cons.mp hq with rfl | hq
          · exact le_of_lt h3
          · exact h5 q hq
    · rw [show best_loop (p :: tl) b0 m0 = best_loop tl b0 m0 by
        rw [best_loop_cons, if_neg hlt]]
      rcases ih b0 m0 with ⟨hres, hall⟩ |
          ⟨pre', e, suf', hdec, h1, h2, h3, h4, h5⟩
      · left
        refine ⟨hres, ?_⟩
        intro q hq
        rcases List.mem_cons.mp hq with rfl | hq
        · exact le_of_not_lt hlt
        · exact hall q hq
      · right
        refine ⟨p :: pre', e, suf', by rw [hdec, List.cons_append], h1, h2,
          h3, ?_, ?_⟩
        · intro q hq
          rcases List.mem_cons.mp hq with rfl | hq
          · exact lt_of_le_of_lt (le_of_not_lt hlt) h3
          · exact h4 q hq
        · intro q hq
          rcases List.mem_cons.mp hq with rfl | hq
          · exact le_trans (le_of_not_lt hlt) (le_of_lt h3)
          · exact h5 q hq

theorem any_key_iff (d : List (String × DmgInfo)) (k : String) :
    (d.any (fun p => p.1 = k) = true) ↔ k ∈ d.map Prod.fst := by
  rw [List.any_eq_true, List.mem_map]
  constructor
  · rintro ⟨p, hp, he⟩
    exact ⟨p, hp, by simpa using he⟩
  · rintro ⟨p, hp, he⟩
    exact ⟨p, hp, by simpa using he⟩

theorem calc_fold_keys_append (b : Battle) (lm : Option String) :
    ∀ (ms : List Move) (d : List (String × DmgInfo)),
    (ms.map Move.id).Nodup →
    (∀ mv ∈ ms, mv.id ∉ d.map Prod.fst) →
    ((ms.foldl (fun d mv =>
        dmgInsert d mv.id (move_damage_entry b lm mv)) d).map Prod.fst) =
      d.map Prod.fst ++ ms.map Move.id := by
  intro ms
  induction ms with
  | nil => intro d _ _; simp
  | cons mv tl ih =>
    intro d hnd hdisj
    rw [List.foldl_cons]
    have hmem : mv.id ∉ d.map Prod.fst := hdisj mv (List.mem_cons_self mv tl)
    have hins : (dmgInsert d mv.id
        (move_damage_entry b lm mv)).map Prod.fst =
        d.map Prod.fst ++ [mv.id] := by
      unfold dmgInsert
      rw [if_neg (fun hc => hmem ((any_key_iff d mv.id).mp hc)),
        List.map_append]
      rfl
    rw [List.map_cons] at hnd
    have hnd' := List.nodup_cons.mp hnd
    rw [ih _ hnd'.2 ?_, hins]
    · simp
    · intro mw hmw
      rw [hins, List.mem_append, List.mem_singleton]
      rintro (hc | hc)
      · exact hdisj mw (List.mem_cons_of_mem _ hmw) hc
      · exact hnd'.1 (hc ▸ List.mem_map_of_mem Move.id hmw)

theorem calc_keys_order (b : Battle) (lm : Option String)
    (h : (b.available_moves.map Move.id).Nodup) :
    (calculate_move_damages b lm).map Prod.fst =
      b.available_moves.map Move.id := by
  unfold calculate_move_damages
  rw [calc_fold_keys_append b lm _ _ h (by simp)]
  rfl

theorem getD_mem_of_mem {α : Type} (l : List α) (d : α) (n : Nat)
    (hd : d ∈ l) : l.getD n d ∈ l := by
  rw [List.getD_eq_getElem?_getD]
  cases h : l[n]? with
  | none => simpa [h] using hd
  | some x =>
    have := List.getElem?_mem h
    simpa [h] using this

/-- C7: the Fallback Selector.  (1) Under distinct move ids, the damage
map lists the moves in first-seen `availableMoves` order; (2) when the
selection loop finds a best id, that id's entry has expected damage
strictly above every earlier entry and at least every entry of the map —
the strictly-greatest pick with first-seen tie-break; (3) a found non-empty
id that resolves to a move is committed as that move; (4) when no entry
beats the `-1` sentinel (no moves at all), the committed order is a switch
from `available_switches`, whichever random draw occurs; and (5) every
legal switch is the outcome of some draw. -/
theorem C7_fallback_selector (b : Battle) (lm : Option String) (r : Nat) :
    ((b.available_moves.map Move.id).Nodup →
      (calculate_move_damages b lm).map Prod.fst =
        b.available_moves.map Move.id) ∧
    (∀ id, (best_loop (calculate_move_damages b lm) none (-1)).1 = some id →
      ∃ pre e suf, calculate_move_damages b lm = pre ++ e :: suf ∧
        e.1 = id ∧
        (∀ p ∈ pre, p.2.expected_damage < e.2.expected_damage) ∧
        (∀ p ∈ calculate_move_damages b lm,
          p.2.expected_damage ≤ e.2.expected_damage)) ∧
    (∀ id mv, (best_loop (calculate_move_damages b lm) none (-1)).1 = some id →
      id ≠ "" → b.available_moves.find? (fun m => m.id = id) = some mv →
      select_best_damage_move b lm r = Order.useMove mv.id) ∧
    ((∀ p ∈ calculate_move_damages b lm, p.2.expected_damage ≤ -1) →
      b.available_switches ≠ [] →
      ∃ q ∈ b.available_switches,
        select_best_damage_move b lm r = Order.useSwitch q.species) ∧
    ((∀ p ∈ calculate_move_damages b lm, p.2.expected_damage ≤ -1) →
      ∀ q ∈ b.available_switches, ∃ rq : Nat,
        select_best_damage_move b lm rq = Order.useSwitch q.species) := by
  have hnone : (∀ p ∈ calculate_move_damages b lm,
      p.2.expected_damage ≤ -1) →
      best_loop (calculate_move_damages b lm) none (-1) = (none, -1) := by
    intro hall
    rcases best_loop_spec (calculate_move_damages b lm) none (-1) with
      ⟨hres, _⟩ | ⟨pre, e, suf, hdec, _, _, h3, _, _⟩
    · exact hres
    · exfalso
      have : e ∈ calculate_move_damages b lm := by
        rw [hdec]
        exact List.mem_append_right _ (List.mem_cons_self e suf)
      exact absurd (hall e this) (by linarith)
  refine ⟨calc_keys_order b lm, ?_, ?_, ?_, ?_⟩
  · intro id hid
    rcases best_loop_spec (calculate_move_damages b lm) none (-1) with
      ⟨hres, _⟩ | ⟨pre, e, suf, hdec, h1, _, _, h4, h5⟩
    · rw [hres] at hid
      exact absurd hid (by simp)
    · rw [h1] at hid
      exact ⟨pre, e, suf, hdec, by simpa using hid, h4, h5⟩
  · intro id mv hid hne hfind
    unfold select_best_damage_move
    dsimp only
    rw [hid]
    dsimp only
    rw [if_pos hne, hfind]
  · intro hall hsw
    have hbl := hnone hall
    unfold select_best_damage_move
    dsimp only
    rw [hbl]
    unfold choose_random_move_order
    cases hs : b.available_switches with
    | nil => exact absurd hs hsw
    | cons q rest =>
      refine ⟨(q :: rest).getD (r % (q :: rest).length) q, ?_, rfl⟩
      exact getD_mem_of_mem _ _ _ (List.mem_cons_self q rest)
  · intro hall q hq
    have hbl := hnone hall
    cases hs : b.available_switches with
    | nil => rw [hs] at hq; exact absurd hq (List.not_mem_nil q)
    | cons p rest =>
      rw [hs] at hq
      rcases List.mem_iff_get.mp hq with ⟨⟨n, hn⟩, hget⟩
      refine ⟨n, ?_⟩
      unfold select_best_damage_move
      dsimp only
      rw [hbl]
      unfold choose_random_move_order
      rw [hs]
      dsimp only
      have hmod : n % (p :: rest).length = n := Nat.mod_eq_of_lt hn
      rw [hmod]
      have hval : (p :: rest).getD n p = q := by
        rw [List.getD_eq_getElem?_getD, List.getElem?_eq_getElem hn]
        simpa [List.get_eq_getElem] using hget
      rw [hval]

/-- Witness for C7: with one damaging move the loop's pick is committed as
that move; with no moves at all the committed order is a legal switch. -/
theorem C7_fallback_selector_witness :
    select_best_damage_move bC2 none 0 = Order.useMove tackleMv.id ∧
    (∃ q ∈ bC7.available_switches,
      select_best_damage_move bC7 none 5 = Order.useSwitch q.species) :=
  ⟨(C7_fallback_selector bC2 none 0).2.2.1 "tackle" tackleMv
      (by with_unfolding_all decide) (by decide)
      (by with_unfolding_all decide),
   (C7_fallback_selector bC7 none 5).2.2.2.1
      (by with_unfolding_all decide) (by decide)⟩

/-! ## C8 and C10: the decision-maker validation loop -/

theorem attempt_response_some (b : Battle) (legal : List String)
    (resp : Option String) (dec : Decision)
    (h : attempt_response b legal resp = some dec) :
    ∃ s, resp = some s ∧
      legal.contains (sanitize_model_response s) = true := by
  unfold attempt_response at h
  cases resp with
  | none => simp at h
  | some s =>
    refine ⟨s, rfl, ?_⟩
    dsimp only at h
    by_cases hs : s = ""
    · rw [if_pos hs] at h
      simp at h
    · rw [if_neg hs] at h
      by_cases hc : legal.contains (sanitize_model_response s) = true

      · exact hc
      · rw [if_neg hc] at h
        simp at h

theorem choose_action_loop_all_fail (b : Battle) (legal : List String) :
    ∀ rs : List (Option String),
    (∀ resp ∈ rs, attempt_response b legal resp = none) →
    choose_action_loop b legal rs = Decision.fallback := by
  intro rs
  induction rs with
  | nil => intro _; rfl
  | cons resp rest ih =>
    intro hall
    unfold choose_action_loop
    rw [hall resp (List.mem_cons_self resp rest)]
    exact ih (fun q hq => hall q (List.mem_cons_of_mem _ hq))

theorem choose_action_loop_accept (b : Battle) (legal : List String) :
    ∀ (rs : List (Option String)) (d : Decision),
    choose_action_loop b legal rs = d → d ≠ Decision.fallback →
    ∃ resp ∈ rs, ∃ s, resp = some s ∧
      legal.contains (sanitize_model_response s) = true := by
  intro rs
  induction rs with
  | nil =>
    intro d hd hne
    exact absurd hd.symm hne
  | cons resp rest ih =>
    intro d hd hne
    unfold choose_action_loop at hd
    cases ha : attempt_response b legal resp with
    | some dec =>
      obtain ⟨s, hs, hc⟩ := attempt_response_some b legal resp dec ha
      exact ⟨resp, List.mem_cons_self resp rest, s, hs, hc⟩
    | none =>
      rw [ha] at hd
      obtain ⟨q, hq, hex⟩ := ih d hd hne
      exact ⟨q, List.mem_cons_of_mem _ hq, hex⟩

/-- C8: a decision-maker response is accepted only when its sanitized form
is an exact member of the candidate list; at most `max_retries = 3`
responses are consulted; and when every consulted response fails, the
Fallback Selector decides — in particular, when its loop finds a best id
resolving to a move, that highest-expected-damage move is committed. -/
theorem C8_retry_validation (b : Battle) (lm : Option String)
    (legal : List String) (responses : List (Option String)) (r : Nat) :
    (∀ d, choose_move_decision b legal responses = d →
      d ≠ Decision.fallback →
      ∃ resp ∈ responses.take max_retries, ∃ s, resp = some s ∧
        legal.contains (sanitize_model_response s) = true) ∧
    ((∀ resp ∈ responses.take max_retries,
        attempt_response b legal resp = none) →
      committed_order b lm legal responses r =
        select_best_damage_move b lm r) ∧
    (∀ id mv,
      (∀ resp ∈ responses.take max_retries,
        attempt_response b legal resp = none) →
      (best_loop (calculate_move_damages b lm) none (-1)).1 = some id →
      id ≠ "" → b.available_moves.find? (fun m => m.id = id) = some mv →
      committed_order b lm legal responses r = Order.useMove mv.id) := by
  have hfb : (∀ resp ∈ responses.take max_retries,
      attempt_response b legal resp = none) →
      choose_move_decision b legal responses = Decision.fallback := by
    intro hall
    unfold choose_move_decision
    exact choose_action_loop_all_fail b legal _ hall
  refine ⟨?_, ?_, ?_⟩
  · intro d hd hne
    exact choose_action_loop_accept b legal _ d hd hne
  · intro hall
    unfold committed_order
    rw [hfb hall]
  · intro id mv hall hid hne hfind
    unfold committed_order
    rw [hfb hall]
    dsimp only
    unfold select_best_damage_move
    dsimp only
    rw [hid]
    dsimp only
    rw [if_pos hne, hfind]

/-- Witness for C8 at concrete inputs: a sanitized response is accepted
exactly when it lands in the candidate list, and three failures commit the
Fallback Selector's highest-expected-damage move. -/
theorem C8_retry_validation_witness :
    (∃ resp ∈ ([some "  TACKLE! "] : List (Option String)).take max_retries,
      ∃ s, resp = some s ∧
        (["tackle"] : List String).contains
          (sanitize_model_response s) = true) ∧
    committed_order bC2 none ["tackle"]
      [some "hyperbeam", none, some "slam"] 0 = Order.useMove tackleMv.id :=
  ⟨(C8_retry_validation bC2 none ["tackle"] [some "  TACKLE! "] 0).1
      (Decision.move "tackle") (by with_unfolding_all decide)
      (by decide),
   (C8_retry_validation bC2 none ["tackle"]
      [some "hyperbeam", none, some "slam"] 0).2.2 "tackle" tackleMv
      (by with_unfolding_all decide) (by with_unfolding_all decide)
      (by decide) (by with_unfolding_all decide)⟩

theorem sanitize_chars (s : String) :
    ∀ c ∈ (sanitize_model_response s).data,
      ('a' ≤ c ∧ c ≤ 'z') ∨ c = '-' := by
  intro c hc
  unfold sanitize_model_response at hc
  dsimp only at hc
  rw [List.mem_filter] at hc
  have := hc.2
  simpa using of_decide_eq_true this

/-- C10: a candidate identifier containing any character outside lowercase
letters and hyphen (such as the digit in `switch-porygon2`) can never be
accepted: every sanitized response lies in the restricted alphabet, so the
exact-membership test always fails for that candidate, and when it is the
only candidate the loop always falls through to the Fallback Selector. -/
theorem C10_unacceptable_candidate (b : Battle) (a : String)
    (hbad : ∃ c ∈ a.data, ¬ (('a' ≤ c ∧ c ≤ 'z') ∨ c = '-')) :
    (∀ s : String, sanitize_model_response s ≠ a) ∧
    (∀ responses : List (Option String),
      choose_move_decision b [a] responses = Decision.fallback) := by
  obtain ⟨c, hca, hcbad⟩ := hbad
  have hns : ∀ s : String, sanitize_model_response s ≠ a := by
    intro s he
    apply hcbad
    apply sanitize_chars s
    rw [he]
    exact hca
  refine ⟨hns, ?_⟩
  intro responses
  unfold choose_move_decision
  apply choose_action_loop_all_fail
  intro resp _
  unfold attempt_response
  cases resp with
  | none => rfl
  | some s =>
    dsimp only
    by_cases hs : s = ""
    · rw [if_pos hs]
    · rw [if_neg hs, if_neg]
      intro hc
      have hmem : sanitize_model_response s ∈ [a] := by simpa using hc
      rw [List.mem_singleton] at hmem
      exact hns s hmem

/-- Witness for C10 on the digit-bearing candidate `switch-porygon2`. -/
theorem C10_unacceptable_candidate_witness :
    sanitize_model_response "switch-porygon2" ≠ "switch-porygon2" ∧
    choose_move_decision bC7 ["switch-porygon2"]
      [some "switch-porygon2", some "switch-porygon2",
       some "switch-porygon2"] = Decision.fallback :=
  ⟨(C10_unacceptable_candidate bC7 "switch-porygon2"
      (by decide)).1 "switch-porygon2",
   (C10_unacceptable_candidate bC7 "switch-porygon2"
      (by decide)).2 _⟩

/-! ## C1 helper lemmas: each later rule only removes entries or
substitutes switch candidates -/

theorem mem_ite_erase {l : List String} {a x : String} {c : Prop}
    [Decidable c] (h : x ∈ (if c then l.erase a else l)) : x ∈ l := by
  split_ifs at h
  · exact List.mem_of_mem_erase h
  · exact h

theorem mem_condErase {l : List String} {a x : String} {c : Prop}
    [Decidable c] (h : x ∈ condErase c a l) : x ∈ l := by
  unfold condErase at h
  exact mem_ite_erase h

theorem mem_condEraseTwo {l : List String} {a a' x : String} {c : Prop}
    [Decidable c] (h : x ∈ condEraseTwo c a a' l) : x ∈ l := by
  unfold condEraseTwo at h
  split_ifs at h
  · exact List.mem_of_mem_erase (List.mem_of_mem_erase h)
  · exact h

theorem mem_condOf {l l' : List String} {x : String} {c : Prop}
    [Decidable c] (hsub : x ∈ l' → x ∈ l) (h : x ∈ (if c then l' else l)) :
    x ∈ l := by
  split_ifs at h
  · exact hsub h
  · exact h

theorem mem_foldl_erase :
    ∀ (names fa : List String) (x : String),
    x ∈ names.foldl (fun acc m => acc.erase m) fa → x ∈ fa := by
  intro names
  induction names with
  | nil => intro fa x hx; exact hx
  | cons n tl ih =>
    intro fa x hx
    rw [List.foldl_cons] at hx
    exact List.mem_of_mem_erase (ih _ x hx)

theorem mem_foldl_stepsub {β : Type} (step : List String → β → List String)
    (hstep : ∀ acc m x, x ∈ step acc m → x ∈ acc) :
    ∀ (names : List β) (fa : List String) (x : String),
    x ∈ names.foldl step fa → x ∈ fa := by
  intro names
  induction names with
  | nil => intro fa x hx; exact hx
  | cons n tl ih =>
    intro fa x hx
    rw [List.foldl_cons] at hx
    exact hstep _ _ _ (ih _ x hx)

theorem mem_condFoldErase {l names : List String} {x : String} {c : Prop}
    [Decidable c] (h : x ∈ condFoldErase c names l) : x ∈ l := by
  unfold condFoldErase at h
  split_ifs at h
  · exact mem_foldl_erase names l x h
  · exact h

theorem mem_condKeep {l : List String} {x : String} {p : String → Bool}
    {c : Prop} [Decidable c] (h : x ∈ condKeep c p l) : x ∈ l := by
  unfold condKeep at h
  split_ifs at h
  · exact List.mem_of_mem_filter h
  · exact h

theorem fmRule1_subset (b : Battle) (fa : List String) :
    ∀ x ∈ fmRule1 b fa, x ∈ fa := by
  intro x hx
  unfold fmRule1 at hx
  exact mem_condFoldErase hx

theorem fmRule2_subset (b : Battle) (fa : List String) :
    ∀ x ∈ fmRule2 b fa, x ∈ fa := by
  intro x hx
  unfold fmRule2 at hx
  dsimp only at hx
  exact mem_condErase (mem_condErase (mem_condErase (mem_condErase
    (mem_condErase (mem_condErase (mem_condErase (mem_condErase
      (mem_condErase hx))))))))

theorem fmRule3_subset (b : Battle) (fa : List String) :
    ∀ x ∈ fmRule3 b fa, x ∈ fa := by
  intro x hx
  unfold fmRule3 at hx
  dsimp only at hx
  refine mem_condOf ?_ hx
  intro h
  exact List.mem_of_mem_erase (List.mem_of_mem_erase (mem_condErase h))

theorem fmRule4_subset (b : Battle) (fa : List String) :
    ∀ x ∈ fmRule4 b fa, x ∈ fa := by
  intro x hx
  unfold fmRule4 at hx
  dsimp only at hx
  exact mem_condErase (mem_condErase (mem_condEraseTwo (mem_condErase
    (mem_condEraseTwo (mem_condEraseTwo (mem_condErase (mem_condErase
      (mem_condErase (mem_condErase (mem_condErase hx))))))))))

theorem fmRule6_subset (b : Battle) (dm : List (String × DmgInfo))
    (fa : List String) : ∀ x ∈ fmRule6 b dm fa, x ∈ fa := by
  intro x hx
  unfold fmRule6 at hx
  exact mem_foldl_stepsub _ (fun acc m x h => mem_ite_erase h) dm fa x hx

theorem fmRule7_subset (b : Battle) (dm : List (String × DmgInfo))
    (fa : List String) : ∀ x ∈ fmRule7 b dm fa, x ∈ fa := by
  intro x hx
  unfold fmRule7 at hx
  exact mem_foldl_stepsub _ (fun acc m x h => mem_ite_erase h) dm fa x hx

theorem fmRule8_subset (b : Battle) (fa : List String) :
    ∀ x ∈ fmRule8 b fa, x ∈ fa := by
  intro x hx
  unfold fmRule8 at hx
  exact mem_condFoldErase hx

theorem fmRule9_subset (b : Battle) (fa : List String) :
    ∀ x ∈ fmRule9 b fa, x ∈ fa := by
  intro x hx
  unfold fmRule9 at hx
  dsimp only at hx
  exact mem_condErase (mem_condErase (mem_condErase (mem_condFoldErase hx)))

theorem fmRule11_subset (b : Battle) (fa : List String) :
    ∀ x ∈ fmRule11 b fa, x ∈ fa := by
  intro x hx
  unfold fmRule11 at hx
  exact mem_condEraseTwo hx

theorem fmRule12_subset (lm : Option String) (fa : List String) :
    ∀ x ∈ fmRule12 lm fa, x ∈ fa := by
  intro x hx
  unfold fmRule12 at hx
  exact mem_condErase hx

theorem fmRule13_subset (b : Battle) (fa : List String) :
    ∀ x ∈ fmRule13 b fa, x ∈ fa := by
  intro x hx
  unfold fmRule13 at hx
  dsimp only at hx
  exact mem_condFoldErase (mem_condErase (mem_condErase (mem_condEraseTwo
    (mem_condErase hx))))

theorem fmRule13half_subset (b : Battle) (fa : List String) :
    ∀ x ∈ fmRule13half b fa, x ∈ fa := by
  intro x hx
  unfold fmRule13half at hx
  dsimp only at hx
  refine mem_condOf ?_ hx
  intro h
  exact mem_condFoldErase (mem_condFoldErase (mem_condErase
    (mem_condFoldErase (mem_condErase h))))

theorem fmRule14_subset (b : Battle) (fa : List String) :
    ∀ x ∈ fmRule14 b fa, x ∈ fa := by
  intro x hx
  unfold fmRule14 at hx
  exact mem_condErase hx

theorem fmRule16_subset (b : Battle) (fa : List String) :
    ∀ x ∈ fmRule16 b fa, x ∈ fa := by
  intro x hx
  unfold fmRule16 at hx
  exact mem_condFoldErase hx

theorem fmRule17_subset (lm : Option String) (fa : List String) :
    ∀ x ∈ fmRule17 lm fa, x ∈ fa := by
  intro x hx
  unfold fmRule17 at hx
  exact mem_condFoldErase hx

theorem fmRule18_subset (b : Battle) (fa : List String) :
    ∀ x ∈ fmRule18 b fa, x ∈ fa := by
  intro x hx
  unfold fmRule18 at hx
  exact mem_condEraseTwo (mem_condErase (mem_condErase (mem_condErase hx)))

theorem fmRule20_subset (b : Battle) (dm : List (String × DmgInfo))
    (fa : List String) : ∀ x ∈ fmRule20 b dm fa, x ∈ fa := by
  intro x hx
  unfold fmRule20 at hx
  exact mem_condErase hx

theorem fmRule21_subset (b : Battle) (fa : List String) :
    ∀ x ∈ fmRule21 b fa, x ∈ fa := by
  intro x hx
  unfold fmRule21 at hx
  exact mem_condKeep hx

theorem fmRule22_subset (b : Battle) (fa : List String) :
    ∀ x ∈ fmRule22 b fa, x ∈ fa := by
  intro x hx
  unfold fmRule22 at hx
  exact mem_condErase hx

theorem fmRule23_subset (b : Battle) (fa : List String) :
    ∀ x ∈ fmRule23 b fa, x ∈ fa := by
  intro x hx
  unfold fmRule23 at hx
  exact mem_condKeep hx

theorem fmRule25_subset (fa : List String) :
    ∀ x ∈ fmRule25 fa, x ∈ fa := by
  intro x hx
  unfold fmRule25 at hx
  exact mem_foldl_erase _ fa x hx

theorem fmRule29_subset (lm : Option String) (fa : List String) :
    ∀ x ∈ fmRule29 lm fa, x ∈ fa := by
  intro x hx
  unfold fmRule29 at hx
  exact mem_condErase hx

theorem fmRule30_subset (b : Battle) (fa : List String) :
    ∀ x ∈ fmRule30 b fa, x ∈ fa := by
  intro x hx
  unfold fmRule30 at hx
  exact mem_foldl_stepsub _ (fun acc m x h => mem_ite_erase h) _ fa x hx

theorem fmRule33_subset (b : Battle) (fa : List String) :
    ∀ x ∈ fmRule33 b fa, x ∈ fa := by
  intro x hx
  unfold fmRule33 at hx
  exact mem_foldl_stepsub _ (fun acc m x h => mem_ite_erase h) _ fa x hx

theorem fmRule36_subset (lm : Option String) (fa : List String) :
    ∀ x ∈ fmRule36 lm fa, x ∈ fa := by
  intro x hx
  unfold fmRule36 at hx
  exact mem_condErase hx

theorem filter_suboptimal_switches_subset (b : Battle) (l : List String) :
    ∀ x ∈ filter_suboptimal_switches b l, x ∈ l := by
  intro x hx
  unfold filter_suboptimal_switches at hx
  dsimp only at hx
  split_ifs at hx with h1 h2
  · exact absurd hx (List.not_mem_nil x)
  · exact hx
  · exact List.mem_of_mem_filter hx

theorem rules_29_end_subset (b : Battle) (lm : Option String)
    (fa : List String) : ∀ x ∈ rules_29_end b lm fa, x ∈ fa := by
  intro x hx
  unfold rules_29_end at hx
  exact fmRule29_subset _ _ x (fmRule30_subset _ _ x (fmRule33_subset _ _ x
    (fmRule36_subset _ _ x hx)))

theorem rules_27_end_subOr (b : Battle) (lm : Option String)
    (fa : List String) :
    ∀ x ∈ rules_27_end b lm fa, x ∈ fa ∨ x ∈ switchNames b := by
  intro x hx
  unfold rules_27_end at hx
  dsimp only at hx
  split_ifs at hx
  all_goals first
    | exact Or.inr (filter_suboptimal_switches_subset _ _ x hx)
    | exact Or.inl (rules_29_end_subset _ _ _ x hx)

theorem rules_26b_end_subOr (b : Battle) (lm : Option String)
    (dm : List (String × DmgInfo)) (fa : List String) :
    ∀ x ∈ rules_26b_end b lm dm fa, x ∈ fa ∨ x ∈ switchNames b := by
  intro x hx
  unfold rules_26b_end at hx
  dsimp only at hx
  split_ifs at hx
  all_goals first
    | exact Or.inr (filter_suboptimal_switches_subset _ _ x hx)
    | exact rules_27_end_subOr _ _ _ x hx

theorem rules_26a_end_subOr (b : Battle) (lm : Option String)
    (dm : List (String × DmgInfo)) (fa : List String) :
    ∀ x ∈ rules_26a_end b lm dm fa, x ∈ fa ∨ x ∈ switchNames b := by
  intro x hx
  unfold rules_26a_end at hx
  dsimp only at hx
  split_ifs at hx
  all_goals first
    | exact Or.inr (filter_suboptimal_switches_subset _ _ x hx)
    | exact rules_26b_end_subOr _ _ _ _ x hx

theorem rules_24_end_subOr (b : Battle) (lm : Option String)
    (dm : List (String × DmgInfo)) (fa : List String) :
    ∀ x ∈ rules_24_end b lm dm fa, x ∈ fa ∨ x ∈ switchNames b := by
  intro x hx
  unfold rules_24_end at hx
  split_ifs at hx
  · exact Or.inl (List.mem_of_mem_filter hx)
  · rcases rules_26a_end_subOr _ _ _ _ x hx with h | h
    · exact Or.inl (fmRule25_subset fa x h)
    · exact Or.inr h

theorem rules_16_end_subOr (b : Battle) (lm : Option String)
    (dm : List (String × DmgInfo)) (fa : List String) :
    ∀ x ∈ rules_16_end b lm dm fa, x ∈ fa ∨ x ∈ switchNames b := by
  intro x hx
  unfold rules_16_end at hx
  rcases rules_24_end_subOr _ _ _ _ x hx with h | h
  · exact Or.inl (fmRule16_subset _ _ x (fmRule17_subset _ _ x
      (fmRule18_subset _ _ x (fmRule20_subset _ _ _ x
        (fmRule21_subset _ _ x (fmRule22_subset _ _ x
          (fmRule23_subset _ _ x h)))))))
  · exact Or.inr h

theorem rules_15_end_subOr (b : Battle) (lm : Option String)
    (dm : List (String × DmgInfo)) (fa : List String) :
    ∀ x ∈ rules_15_end b lm dm fa, x ∈ fa ∨ x ∈ switchNames b := by
  intro x hx
  unfold rules_15_end at hx
  dsimp only at hx
  split_ifs at hx
  · exact Or.inl hx
  · exact Or.inr (filter_suboptimal_switches_subset _ _ x hx)
  · exact rules_16_end_subOr _ _ _ _ x hx

theorem rules_11_end_subOr (b : Battle) (lm : Option String)
    (dm : List (String × DmgInfo)) (fa : List String) :
    ∀ x ∈ rules_11_end b lm dm fa, x ∈ fa ∨ x ∈ switchNames b := by
  intro x hx
  unfold rules_11_end at hx
  rcases rules_15_end_subOr _ _ _ _ x hx with h | h
  · exact Or.inl (fmRule11_subset _ _ x (fmRule12_subset _ _ x
      (fmRule13_subset _ _ x (fmRule13half_subset _ _ x
        (fmRule14_subset _ _ x h)))))
  · exact Or.inr h

theorem rules_10_end_subOr (b : Battle) (lm : Option String)
    (dm : List (String × DmgInfo)) (la fa : List String) :
    ∀ x ∈ rules_10_end b lm dm la fa,
      x ∈ fa ∨ x ∈ switchNames b ∨
        (x = "sleeptalk" ∧ la.contains "sleeptalk" = true) := by
  intro x hx
  unfold rules_10_end at hx
  split_ifs at hx with hs hc hl
  · rcases rules_11_end_subOr _ _ _ _ x hx with h | h
    · rcases List.mem_cons.mp h with rfl | h
      · exact Or.inr (Or.inr ⟨rfl, hl⟩)
      · exact Or.inl (List.mem_of_mem_filter h)
    · exact Or.inr (Or.inl h)
  · exact Or.inl (List.mem_of_mem_filter hx)
  · exact Or.inl (List.mem_of_mem_filter hx)
  · rcases rules_11_end_subOr _ _ _ _ x hx with h | h
    · exact Or.inl (List.mem_of_mem_erase h)
    · exact Or.inr (Or.inl h)

theorem rules_6_end_subOr (b : Battle) (lm : Option String)
    (dm : List (String × DmgInfo)) (la fa : List String) :
    ∀ x ∈ rules_6_end b lm dm la fa,
      x ∈ fa ∨ x ∈ switchNames b ∨
        (x = "sleeptalk" ∧ la.contains "sleeptalk" = true) := by
  intro x hx
  unfold rules_6_end at hx
  rcases rules_10_end_subOr _ _ _ _ _ x hx with h | h
  · exact Or.inl (fmRule6_subset _ _ _ x (fmRule7_subset _ _ _ x
      (fmRule8_subset _ _ x (fmRule9_subset _ _ x h))))
  · exact Or.inr h

theorem rules_5_end_subOr (b : Battle) (lm : Option String)
    (dm : List (String × DmgInfo)) (la fa : List String) :
    ∀ x ∈ rules_5_end b lm dm la fa,
      x ∈ fa ∨ x ∈ switchNames b ∨
        (x = "sleeptalk" ∧ la.contains "sleeptalk" = true) := by
  intro x hx
  unfold rules_5_end at hx
  rcases hmv : b.available_moves with _ | ⟨locked, _ | ⟨m2, rest⟩⟩ <;>
    rw [hmv] at hx <;> dsimp only at hx
  · exact rules_6_end_subOr _ _ _ _ _ x hx
  · split_ifs at hx
    · exact Or.inl hx
    · exact Or.inr (Or.inl (filter_suboptimal_switches_subset _ _ x hx))
    · exact rules_6_end_subOr _ _ _ _ _ x hx
  · exact rules_6_end_subOr _ _ _ _ _ x hx

/-- C1 (amended): once a mortal-peril or kill-securing override fires, its
output becomes the working set, but the later filter rules still run on
it: they may remove entries or replace the set with switch candidates (or
the forced sleep-talk option).  Consequently the pipeline's final result
is always contained in the override phase's output together with the
switch candidates and the sleep-talk entry — but it need not equal the
override's set, as the counterexample shows. -/
theorem C1_overrides_not_terminal_amended (b : Battle) (lm : Option String)
    (la : List String) (dm : List (String × DmgInfo)) :
    ∀ x ∈ filter_suboptimal_moves b lm la dm,
      x ∈ override_phase b la dm ∨ x ∈ switchNames b ∨
        (x = "sleeptalk" ∧ "sleeptalk" ∈ la) := by
  intro x hx
  unfold filter_suboptimal_moves at hx
  rcases rules_5_end_subOr b lm dm la _ x hx with h | h | h
  · exact Or.inl (fmRule1_subset _ _ x (fmRule2_subset _ _ x
      (fmRule3_subset _ _ x (fmRule4_subset _ _ x h))))
  · exact Or.inr (Or.inl h)
  · exact Or.inr (Or.inr ⟨h.1, by simpa using h.2⟩)

/-- C1 counterexample: the kill-securing override fires (opponent below
half HP, we move first, `hyperbeam` crosses the 2.5 threshold) and
produces `["hyperbeam"]` — but the pipeline's final result is `[]`
because the later recharge-move rule removes `hyperbeam`.  The override's
set is not returned as the final result. -/
theorem C1_counterexample_override_not_final :
    bC1.opponent_active_pokemon.current_hp_fraction < 1/2 ∧
    determine_who_moves_first bC1 = true ∧
    ((calculate_move_damages bC1 none).filter
      (fun p => 5/2 ≤ p.2.expected_damage)).map (fun p => p.1) =
        ["hyperbeam"] ∧
    override_phase bC1 ["hyperbeam"] (calculate_move_damages bC1 none) =
      ["hyperbeam"] ∧
    filter_suboptimal_moves bC1 none ["hyperbeam"]
      (calculate_move_damages bC1 none) = [] := by
  with_unfolding_all decide

/-! ## C6: forced sleep handling (Rule 10) at the decision-maker boundary -/

theorem condErase_of_not_mem (c : Prop) [Decidable c] (a : String)
    (l : List String) (h : a ∉ l) : condErase c a l = l := by
  unfold condErase
  split_ifs
  · exact List.erase_of_not_mem h
  · rfl

theorem condEraseTwo_of_not_mem (c : Prop) [Decidable c] (a a' : String)
    (l : List String) (h : a ∉ l) (h' : a' ∉ l) :
    condEraseTwo c a a' l = l := by
  unfold condEraseTwo
  split_ifs
  · rw [List.erase_of_not_mem h, List.erase_of_not_mem h']
  · rfl

theorem foldl_fixed {β : Type} (step : List String → β → List String) :
    ∀ (names : List β) (l : List String), (∀ m ∈ names, step l m = l) →
    names.foldl step l = l := by
  intro names
  induction names with
  | nil => intro l _; rfl
  | cons n tl ih =>
    intro l h
    rw [List.foldl_cons, h n (List.mem_cons_self n tl)]
    exact ih l (fun m hm => h m (List.mem_cons_of_mem n hm))

theorem foldl_erase_of_disjoint (names l : List String)
    (h : ∀ n ∈ names, n ∉ l) :
    names.foldl (fun acc m => acc.erase m) l = l :=
  foldl_fixed _ names l (fun m hm => List.erase_of_not_mem (h m hm))

theorem condFoldErase_of_disjoint (c : Prop) [Decidable c]
    (names l : List String) (h : ∀ n ∈ names, n ∉ l) :
    condFoldErase c names l = l := by
  unfold condFoldErase
  split_ifs
  · exact foldl_erase_of_disjoint names l h
  · rfl

theorem condKeep_of_not (c : Prop) [Decidable c] (p : String → Bool)
    (l : List String) (hc : ¬ c) : condKeep c p l = l := by
  unfold condKeep
  exact if_neg hc

theorem ite_sublist (c : Prop) [Decidable c] (x y l : List String)
    (hx : List.Sublist x l) (hy : List.Sublist y l) :
    List.Sublist (if c then x else y) l := by
  split_ifs
  · exact hx
  · exact hy

theorem condErase_sublist (c : Prop) [Decidable c] (a : String)
    (l : List String) : List.Sublist (condErase c a l) l := by
  unfold condErase
  split_ifs
  · exact List.erase_sublist a l
  · exact List.Sublist.refl l

theorem condEraseTwo_sublist (c : Prop) [Decidable c] (a a' : String)
    (l : List String) : List.Sublist (condEraseTwo c a a' l) l := by
  unfold condEraseTwo
  split_ifs
  · exact (List.erase_sublist a' (l.erase a)).trans (List.erase_sublist a l)
  · exact List.Sublist.refl l

theorem foldl_sublist {β : Type} (step : List String → β → List String)
    (hstep : ∀ acc m, List.Sublist (step acc m) acc) :
    ∀ (names : List β) (l : List String),
    List.Sublist (names.foldl step l) l := by
  intro names
  induction names with
  | nil => intro l; exact List.Sublist.refl l
  | cons n tl ih =>
    intro l
    rw [List.foldl_cons]
    exact (ih (step l n)).trans (hstep l n)

theorem condFoldErase_sublist (c : Prop) [Decidable c]
    (names l : List String) : List.Sublist (condFoldErase c names l) l := by
  unfold condFoldErase
  split_ifs
  · exact foldl_sublist _ (fun acc m => List.erase_sublist m acc) names l
  · exact List.Sublist.refl l

theorem condKeep_sublist (c : Prop) [Decidable c] (p : String → Bool)
    (l : List String) : List.Sublist (condKeep c p l) l := by
  unfold condKeep
  split_ifs
  · exact List.filter_sublist l
  · exact List.Sublist.refl l

theorem fmRule1_sublist (b : Battle) (fa : List String) :
    List.Sublist (fmRule1 b fa) fa := by
  unfold fmRule1
  exact condFoldErase_sublist _ _ _

theorem fmRule2_sublist (b : Battle) (fa : List String) :
    List.Sublist (fmRule2 b fa) fa := by
  unfold fmRule2
  dsimp only
  exact (condErase_sublist _ _ _).trans ((condErase_sublist _ _ _).trans
    ((condErase_sublist _ _ _).trans ((condErase_sublist _ _ _).trans
      ((condErase_sublist _ _ _).trans ((condErase_sublist _ _ _).trans
        ((condErase_sublist _ _ _).trans ((condErase_sublist _ _ _).trans
          (condErase_sublist _ _ _))))))))

theorem fmRule3_sublist (b : Battle) (fa : List String) :
    List.Sublist (fmRule3 b fa) fa := by
  unfold fmRule3
  dsimp only
  exact ite_sublist _ _ _ _
    ((condErase_sublist _ _ _).trans
      ((List.erase_sublist _ _).trans (List.erase_sublist _ _)))
    (List.Sublist.refl _)

theorem fmRule4_sublist (b : Battle) (fa : List String) :
    List.Sublist (fmRule4 b fa) fa := by
  unfold fmRule4
  dsimp only
  exact (condErase_sublist _ _ _).trans ((condErase_sublist _ _ _).trans
    ((condErase_sublist _ _ _).trans ((condErase_sublist _ _ _).trans
      ((condErase_sublist _ _ _).trans ((condEraseTwo_sublist _ _ _ _).trans
        ((condEraseTwo_sublist _ _ _ _).trans ((condErase_sublist _ _ _).trans
          ((condEraseTwo_sublist _ _ _ _).trans
            ((condErase_sublist _ _ _).trans
              (condErase_sublist _ _ _))))))))))

theorem fmRule6_sublist (b : Battle) (dm : List (String × DmgInfo))
    (fa : List String) : List.Sublist (fmRule6 b dm fa) fa := by
  unfold fmRule6
  refine foldl_sublist _ (fun acc p => ?_) dm fa
  dsimp only
  split_ifs
  · exact List.erase_sublist _ _
  · exact List.Sublist.refl _

theorem fmRule7_sublist (b : Battle) (dm : List (String × DmgInfo))
    (fa : List String) : List.Sublist (fmRule7 b dm fa) fa := by
  unfold fmRule7
  refine foldl_sublist _ (fun acc p => ?_) dm fa
  dsimp only
  split_ifs
  · exact List.erase_sublist _ _
  · exact List.Sublist.refl _

theorem fmRule8_sublist (b : Battle) (fa : List String) :
    List.Sublist (fmRule8 b fa) fa := by
  unfold fmRule8
  exact condFoldErase_sublist _ _ _

theorem fmRule9_sublist (b : Battle) (fa : List String) :
    List.Sublist (fmRule9 b fa) fa := by
  unfold fmRule9
  dsimp only
  exact (condFoldErase_sublist _ _ _).trans ((condErase_sublist _ _ _).trans
    ((condErase_sublist _ _ _).trans (condErase_sublist _ _ _)))

theorem rules_1_4_sublist (b : Battle) (fa : List String) :
    List.Sublist (fmRule4 b (fmRule3 b (fmRule2 b (fmRule1 b fa)))) fa :=
  (fmRule4_sublist _ _).trans ((fmRule3_sublist _ _).trans
    ((fmRule2_sublist _ _).trans (fmRule1_sublist _ _)))

theorem rules_6_9_sublist (b : Battle) (dm : List (String × DmgInfo))
    (fa : List String) :
    List.Sublist (fmRule9 b (fmRule8 b (fmRule7 b dm (fmRule6 b dm fa))))
      fa :=
  (fmRule9_sublist _ _).trans ((fmRule8_sublist _ _).trans
    ((fmRule7_sublist _ _ _).trans (fmRule6_sublist _ _ _)))

theorem isPrefixOf_self_append (l m : List Char) :
    l.isPrefixOf (l ++ m) = true := by
  induction l with
  | nil => simp [List.isPrefixOf]
  | cons c t ih => simp [List.isPrefixOf, ih]

theorem mem_switchNames_startsWith (b : Battle) (x : String)
    (hx : x ∈ switchNames b) : strStartsWith x "switch-" = true := by
  unfold switchNames at hx
  rcases List.mem_map.mp hx with ⟨p, -, rfl⟩
  unfold switchName strStartsWith
  rw [String.data_append]
  exact isPrefixOf_self_append _ _

theorem override_phase_id (b : Battle) (la : List String)
    (dm : List (String × DmgInfo)) (hko : has_ko_threat b = false)
    (hhp : 1/2 ≤ b.opponent_active_pokemon.current_hp_fraction) :
    override_phase b la dm = la := by
  unfold override_phase mortal_peril_alert
  dsimp only
  rw [if_pos (show ¬ has_ko_threat b = true by simp [hko])]
  rw [if_neg (not_lt.mpr hhp)]

theorem rules_5_end_to_6 (b : Battle) (lm : Option String)
    (dm : List (String × DmgInfo)) (la fa : List String)
    (hlock : ∀ m ∈ b.available_moves, b.available_moves = [m] →
      1 ≤ b.opponent_active_pokemon.damage_multiplier m) :
    rules_5_end b lm dm la fa = rules_6_end b lm dm la fa := by
  unfold rules_5_end
  rcases hmv : b.available_moves with _ | ⟨locked, rest⟩
  · rfl
  · rcases rest with _ | ⟨m2, rest2⟩
    · dsimp only
      rw [if_neg (not_lt.mpr (hlock locked
        (by rw [hmv]; exact List.mem_singleton_self locked) hmv))]
    · rfl

theorem rules_11_end_singleton (b : Battle) (lm : Option String)
    (dm : List (String × DmgInfo))
    (h15 : rule15_force_switch b = false)
    (h21 : b.opponent_active_pokemon.effects.contains .substitute = false)
    (h23 : ¬ (b.active_pokemon.ability = some "prankster" ∧ 7 ≤ b.gen ∧
      b.opponent_active_pokemon.types.contains .dark))
    (h24 : ¬ (b.active_pokemon.ability = some "truant" ∧
      b.active_pokemon.must_recharge))
    (hEnc : b.active_pokemon.effects.contains .encore = false)
    (hTau : b.active_pokemon.effects.contains .taunt = false)
    (h27 : ([("blissey" : String), "chansey"].contains
      (strLower b.opponent_active_pokemon.species)) = false) :
    rules_11_end b lm dm ["sleeptalk"] = ["sleeptalk"] := by
  have e11 : fmRule11 b ["sleeptalk"] = ["sleeptalk"] := by
    unfold fmRule11
    exact condEraseTwo_of_not_mem _ _ _ _ (by decide) (by decide)
  have e12 : fmRule12 lm ["sleeptalk"] = ["sleeptalk"] := by
    unfold fmRule12
    exact condErase_of_not_mem _ _ _ (by decide)
  have e13 : fmRule13 b ["sleeptalk"] = ["sleeptalk"] := by
    unfold fmRule13
    dsimp only
    rw [condFoldErase_of_disjoint _ status_moves_list ["sleeptalk"]
      (by decide)]
    rw [condErase_of_not_mem _ "thunderwave" ["sleeptalk"] (by decide)]
    rw [condErase_of_not_mem _ "willowisp" ["sleeptalk"] (by decide)]
    rw [condEraseTwo_of_not_mem _ "toxic" "poisonpowder" ["sleeptalk"]
      (by decide) (by decide)]
    exact condErase_of_not_mem _ "leechseed" ["sleeptalk"] (by decide)
  have e135 : fmRule13half b ["sleeptalk"] = ["sleeptalk"] := by
    unfold fmRule13half
    dsimp only
    split_ifs
    · rfl
    · rw [condFoldErase_of_disjoint _
        ["poisonpowder", "sleeppowder", "spore", "stunspore"] ["sleeptalk"]
        (by decide)]
      rw [condFoldErase_of_disjoint _ sleep_moves ["sleeptalk"] (by decide)]
      rw [condErase_of_not_mem _ "willowisp" ["sleeptalk"] (by decide)]
      rw [condFoldErase_of_disjoint _ ["thunderwave", "glare", "nuzzle"]
        ["sleeptalk"] (by decide)]
      exact condErase_of_not_mem _ "taunt" ["sleeptalk"] (by decide)
  have e14 : fmRule14 b ["sleeptalk"] = ["sleeptalk"] := by
    unfold fmRule14
    exact condErase_of_not_mem _ _ _ (by decide)
  have e16 : fmRule16 b ["sleeptalk"] = ["sleeptalk"] := by
    unfold fmRule16
    exact condFoldErase_of_disjoint _ _ _ (by decide)
  have e17 : fmRule17 lm ["sleeptalk"] = ["sleeptalk"] := by
    unfold fmRule17
    exact condFoldErase_of_disjoint _ _ _ (by decide)
  have e18 : fmRule18 b ["sleeptalk"] = ["sleeptalk"] := by
    unfold fmRule18
    rw [condEraseTwo_of_not_mem _ "solarbeam" "solarblade" ["sleeptalk"]
      (by decide) (by decide)]
    rw [condErase_of_not_mem _ "electroshot" ["sleeptalk"] (by decide)]
    rw [condErase_of_not_mem _ "auroraveil" ["sleeptalk"] (by decide)]
    exact condErase_of_not_mem _ "weatherball" ["sleeptalk"] (by decide)
  have e20 : fmRule20 b dm ["sleeptalk"] = ["sleeptalk"] := by
    unfold fmRule20
    exact condErase_of_not_mem _ _ _ (by decide)
  have hSub' : VEffect.substitute ∉ b.opponent_active_pokemon.effects := by
    simpa using h21
  have e21 : fmRule21 b ["sleeptalk"] = ["sleeptalk"] := by
    unfold fmRule21
    exact condKeep_of_not _ _ _ (by simp [hSub'])
  have e22 : fmRule22 b ["sleeptalk"] = ["sleeptalk"] := by
    unfold fmRule22
    exact condErase_of_not_mem _ _ _ (by decide)
  have e23 : fmRule23 b ["sleeptalk"] = ["sleeptalk"] := by
    unfold fmRule23
    exact condKeep_of_not _ _ _ h23
  have e25 : fmRule25 ["sleeptalk"] = ["sleeptalk"] := by
    unfold fmRule25
    exact foldl_erase_of_disjoint _ _ (by decide)
  have e29 : fmRule29 lm ["sleeptalk"] = ["sleeptalk"] := by
    unfold fmRule29
    exact condErase_of_not_mem _ _ _ (by decide)
  have e30 : fmRule30 b ["sleeptalk"] = ["sleeptalk"] := by
    unfold fmRule30
    refine foldl_fixed _ _ _ (fun m hm => ?_)
    refine if_neg (fun hc => ?_)
    have hm' : m = "sleeptalk" := by simpa using hc.1
    subst hm'
    exact absurd hm (by decide)
  have e33 : fmRule33 b ["sleeptalk"] = ["sleeptalk"] := by
    unfold fmRule33
    dsimp only
    refine foldl_fixed _ _ _ (fun m hm => ?_)
    refine if_neg (fun hc => ?_)
    have hm' : m = "sleeptalk" := by simpa using hc.1
    subst hm'
    exact absurd hm (by decide)
  have e36 : fmRule36 lm ["sleeptalk"] = ["sleeptalk"] := by
    unfold fmRule36
    exact condErase_of_not_mem _ _ _ (by decide)
  unfold rules_11_end
  rw [e11, e12, e13, e135, e14]
  unfold rules_15_end
  rw [if_neg (by simp [h15])]
  unfold rules_16_end
  rw [e16, e17, e18, e20, e21, e22, e23]
  unfold rules_24_end
  rw [if_neg h24, e25]
  have hEnc' : VEffect.encore ∉ b.active_pokemon.effects := by
    simpa using hEnc
  have hTau' : VEffect.taunt ∉ b.active_pokemon.effects := by
    simpa using hTau
  have h27' : strLower b.opponent_active_pokemon.species ≠ "blissey" ∧
      strLower b.opponent_active_pokemon.species ≠ "chansey" := by
    simpa using h27
  unfold rules_26a_end
  rw [if_neg (by simp [hEnc'])]
  unfold rules_26b_end
  rw [if_neg (by simp [hTau'])]
  unfold rules_27_end
  rw [if_neg (by simp [h27'.1, h27'.2])]
  unfold rules_29_end
  rw [e29, e30, e33, e36]

theorem legal_actions_to_rule_10 (b : Battle) (lm : Option String)
    (hko : has_ko_threat b = false)
    (hhp : 1/2 ≤ b.opponent_active_pokemon.current_hp_fraction)
    (hlock : ∀ m ∈ b.available_moves, b.available_moves = [m] →
      1 ≤ b.opponent_active_pokemon.damage_multiplier m) :
    legal_actions_for_turn b lm false =
      rules_10_end b lm (calculate_move_damages b lm)
        (b.available_moves.map Move.id)
        (fmRule9 b (fmRule8 b (fmRule7 b (calculate_move_damages b lm)
          (fmRule6 b (calculate_move_damages b lm)
            (fmRule4 b (fmRule3 b (fmRule2 b (fmRule1 b
              (b.available_moves.map Move.id))))))))) ++
        filter_suboptimal_switches b (switchNames b) := by
  unfold legal_actions_for_turn
  dsimp only
  rw [if_neg Bool.false_ne_true]
  unfold filter_suboptimal_moves
  rw [override_phase_id b (b.available_moves.map Move.id)
    (calculate_move_damages b lm) hko hhp]
  rw [rules_5_end_to_6 b lm _ _ _ hlock]
  unfold rules_6_end
  rfl

/-- C6 counterexample: the active Pokémon is asleep with one remaining
sleep turn and Sleep Talk available, yet the final candidate set is NOT
the wake-up move plus the legal switches: the opponent's Substitute makes
the later status-move rule (Rule 21) strike `sleeptalk` after the sleep
branch has rebuilt the working set, so only the switch survives. -/
theorem C6_counterexample_substitute :
    bC6.active_pokemon.status = some .slp ∧
    bC6.active_pokemon.status_counter ≤ 1 ∧
    "sleeptalk" ∈ bC6.available_moves.map Move.id ∧
    switchNames bC6 = ["switch-bidoof"] ∧
    legal_actions_for_turn bC6 none false = ["switch-bidoof"] := by
  with_unfolding_all decide

/-- C6 (amended): the sleep rule's output is handed to the REST of the
pipeline, not returned directly, and the switches appended in
`choose_move` are the viable (filtered) switches, not all legal ones.
Under side conditions that keep every later rule quiescent (no override
fires, no locked bad move, no forced-switch rule, no Substitute/Taunt/
Encore/Prankster/Truant/special-wall interference, and distinct non-switch
move ids): (1) asleep with at most one sleep turn left and `sleeptalk`
among the legal moves, the candidate set is exactly `sleeptalk` followed
by the viable switches; (2) asleep otherwise, it is exactly the viable
switches; (3) not asleep, `sleeptalk` never reaches the candidate set. -/
theorem C6_sleep_handling_amended (b : Battle) (lm : Option String)
    (hko : has_ko_threat b = false)
    (hhp : 1/2 ≤ b.opponent_active_pokemon.current_hp_fraction)
    (hlock : ∀ m ∈ b.available_moves, b.available_moves = [m] →
      1 ≤ b.opponent_active_pokemon.damage_multiplier m)
    (hsw : ∀ a ∈ b.available_moves.map Move.id,
      strStartsWith a "switch-" = false)
    (hnodup : (b.available_moves.map Move.id).Nodup)
    (h15 : rule15_force_switch b = false)
    (h21 : b.opponent_active_pokemon.effects.contains .substitute = false)
    (h23 : ¬ (b.active_pokemon.ability = some "prankster" ∧ 7 ≤ b.gen ∧
      b.opponent_active_pokemon.types.contains .dark))
    (h24 : ¬ (b.active_pokemon.ability = some "truant" ∧
      b.active_pokemon.must_recharge))
    (hEnc : b.active_pokemon.effects.contains .encore = false)
    (hTau : b.active_pokemon.effects.contains .taunt = false)
    (h27 : ([("blissey" : String), "chansey"].contains
      (strLower b.opponent_active_pokemon.species)) = false) :
    (b.active_pokemon.status = some .slp →
      b.active_pokemon.status_counter ≤ 1 →
      "sleeptalk" ∈ b.available_moves.map Move.id →
      legal_actions_for_turn b lm false =
        "sleeptalk" :: filter_suboptimal_switches b (switchNames b)) ∧
    (b.active_pokemon.status = some .slp →
      ("sleeptalk" ∉ b.available_moves.map Move.id ∨
        1 < b.active_pokemon.status_counter) →
      legal_actions_for_turn b lm false =
        filter_suboptimal_switches b (switchNames b)) ∧
    (b.active_pokemon.status ≠ some .slp →
      "sleeptalk" ∉ legal_actions_for_turn b lm false) := by
  have hnav := legal_actions_to_rule_10 b lm hko hhp hlock
  have hsubl : List.Sublist
      (fmRule9 b (fmRule8 b (fmRule7 b (calculate_move_damages b lm)
        (fmRule6 b (calculate_move_damages b lm)
          (fmRule4 b (fmRule3 b (fmRule2 b (fmRule1 b
            (b.available_moves.map Move.id)))))))))
      (b.available_moves.map Move.id) :=
    (rules_6_9_sublist b _ _).trans (rules_1_4_sublist b _)
  have hfilter : (fmRule9 b (fmRule8 b (fmRule7 b
      (calculate_move_damages b lm) (fmRule6 b (calculate_move_damages b lm)
        (fmRule4 b (fmRule3 b (fmRule2 b (fmRule1 b
          (b.available_moves.map Move.id))))))))).filter
      (fun a => strStartsWith a "switch-") = [] :=
    List.filter_eq_nil_iff.mpr (fun a ha => by
      rw [hsw a (hsubl.subset ha)]
      exact Bool.false_ne_true)
  refine ⟨?_, ?_, ?_⟩
  · intro hs hc hmem
    rw [hnav]
    unfold rules_10_end
    rw [if_pos hs, if_pos hc,
      if_pos (show (b.available_moves.map Move.id).contains "sleeptalk" =
        true by simpa using hmem),
      hfilter,
      rules_11_end_singleton b lm _ h15 h21 h23 h24 hEnc hTau h27]
    exact List.singleton_append
  · intro hs hdisj
    rw [hnav]
    unfold rules_10_end
    rw [if_pos hs]
    by_cases hc : b.active_pokemon.status_counter ≤ 1
    · have hns : ¬ (b.available_moves.map Move.id).contains "sleeptalk" =
          true := by
        rcases hdisj with h | h
        · simpa using h
        · exact absurd hc (not_le.mpr h)
      rw [if_pos hc, if_neg hns, hfilter]
      exact List.nil_append _
    · rw [if_neg hc, hfilter]
      exact List.nil_append _
  · intro hs hmem
    rw [hnav] at hmem
    unfold rules_10_end at hmem
    rw [if_neg hs] at hmem
    rcases List.mem_append.mp hmem with hm | hm
    · rcases rules_11_end_subOr b lm _ _ _ hm with h | h
      · have hnd : (fmRule9 b (fmRule8 b (fmRule7 b
            (calculate_move_damages b lm)
            (fmRule6 b (calculate_move_damages b lm)
              (fmRule4 b (fmRule3 b (fmRule2 b (fmRule1 b
                (b.available_moves.map Move.id))))))))).Nodup :=
          List.Nodup.sublist hsubl hnodup
        exact absurd h hnd.not_mem_erase
      · exact absurd (mem_switchNames_startsWith b _ h) (by decide)
    · exact absurd (mem_switchNames_startsWith b _
        (filter_suboptimal_switches_subset b (switchNames b) _ hm))
        (by decide)

/-- Witness for C6 on `bC6w`: every side condition holds, the active
Pokémon is asleep with one turn left and Sleep Talk available, and the
candidate set is exactly the wake-up move followed by the viable
switches. -/
theorem C6_sleep_handling_amended_witness :
    bC6w.active_pokemon.status = some .slp ∧
    bC6w.active_pokemon.status_counter ≤ 1 ∧
    "sleeptalk" ∈ bC6w.available_moves.map Move.id ∧
    legal_actions_for_turn bC6w none false =
      "sleeptalk" :: filter_suboptimal_switches bC6w (switchNames bC6w) :=
  ⟨by decide, by decide, by decide,
   (C6_sleep_handling_amended bC6w none (by with_unfolding_all decide)
      (by with_unfolding_all decide) (by with_unfolding_all decide)
      (by decide) (by decide) (by with_unfolding_all decide) (by decide)
      (by decide) (by decide) (by decide) (by decide) (by decide)).1
    (by decide) (by decide) (by decide)⟩

/-- Witness for C1 on `bC1w`: `doubleedge` survives the pipeline, and it
indeed lies in the override phase's output (here the unchanged legal
actions). -/
theorem C1_overrides_not_terminal_amended_witness :
    "doubleedge" ∈ filter_suboptimal_moves bC1w none ["doubleedge"]
      (calculate_move_damages bC1w none) ∧
    ("doubleedge" ∈ override_phase bC1w ["doubleedge"]
        (calculate_move_damages bC1w none) ∨
      "doubleedge" ∈ switchNames bC1w ∨
      ("doubleedge" = "sleeptalk" ∧ "sleeptalk" ∈ ["doubleedge"])) :=
  ⟨by with_unfolding_all decide,
   C1_overrides_not_terminal_amended bC1w none ["doubleedge"]
     (calculate_move_damages bC1w none) "doubleedge"
     (by with_unfolding_all decide)⟩

end PokeBattle
